import Mathlib

/-!
# amd-throttle: the gpu_metrics decoder and the throttle-bitmask interpreter

A shallow embedding of `gpu_metrics8_throttling.c` and of the launch set-up of
`step_function.cpp`.

* Machine integers are natural numbers; the width of a C type is made explicit
  with `% 2 ^ w` where the C operation truncates, and by a bound `v < 2 ^ w`
  in the statements.
* A C function that prints is a function returning the sequence of texts written
  by its `printf` calls, one list element per call, in program order.
* `const char *` arguments that the source tests against `NULL` are `Option String`.
* An array together with its element count is a `List`.
-/

namespace AmdThrottle

/-! ## C library formatting -/

/-- Conversion `%u`, `%zu`, `PRIu32`, `PRIu64`: decimal digits, no padding. -/
def fmt_u (n : Nat) : String := toString n

/-- Conversion `%d`: decimal digits with a leading minus sign for negative values. -/
def fmt_d (i : Int) : String := toString i

/-- Conversion `%0Wx` (`0x%08x` with `W = 8`, `0x%016llx` with `W = 16`): lower-case
hexadecimal digits, padded on the left with zeros up to `W` characters. -/
def fmt_0x (w n : Nat) : String :=
  String.mk (List.replicate (w - (Nat.toDigits 16 n).length) '0' ++ Nat.toDigits 16 n)

/-- Rounding of the rational `a / b` to the nearest integer, ties to the even one. -/
def round_half_even (a b : Nat) : Nat :=
  if 2 * (a % b) < b then a / b
  else if b < 2 * (a % b) then a / b + 1
  else if (a / b) % 2 = 0 then a / b
  else a / b + 1

/-- Binary exponent used to normalise `x / 10`: the least `k` with
`2 ^ 52 ≤ x * 2 ^ k / 10`, so that the scaled quotient has a 53-bit significand.
For `1 ≤ x` the search ends at `k ≤ 56`. -/
def div10_scale (x : Nat) : Nat :=
  ((List.range 57).find? (fun k => decide (10 * 2 ^ 52 ≤ x * 2 ^ k))).getD 56

/-- The IEEE-754 binary64 quotient `x / 10.0` of an integer `x < 2 ^ 53`, as a pair
`(m, k)` standing for the dyadic rational `m / 2 ^ k`: the exact quotient is scaled
to a 53-bit significand and rounded to nearest, ties to even. -/
def double_div10 (x : Nat) : Nat × Nat :=
  if x = 0 then (0, 0)
  else (round_half_even (x * 2 ^ div10_scale x) 10, div10_scale x)

/-- Conversion `%.1f` of the non-negative dyadic rational `m / 2 ^ k`: the exact value is
rounded to one decimal place (nearest, ties to even) and written as integer part, point,
one digit. -/
def fmt_1f (d : Nat × Nat) : String :=
  fmt_u (round_half_even (10 * d.1) (2 ^ d.2) / 10) ++ "." ++
    fmt_u (round_half_even (10 * d.1) (2 ^ d.2) % 10)

/-! ## Constants and tables -/

def UINT16_MAX : Nat := 65535

def UINT64_MAX : Nat := 18446744073709551615

/-- Entry of a bit-description table: `uint8_t bit`, `label`, `desc` (may be `NULL`). -/
structure bit_desc_t where
  bit : Nat
  label : String
  desc : Option String
deriving DecidableEq, Repr

/-- Common ASIC-independent mapping (SMU_THROTTLER_* bits). -/
def indep_throttler_bits : List bit_desc_t := [
  ⟨0,  "PPT0", some "pkg power (avg/filtered)"⟩,
  ⟨1,  "PPT1", some "pkg power (raw/spike)"⟩,
  ⟨2,  "PPT2", some "power limit"⟩,
  ⟨3,  "PPT3", some "power limit"⟩,
  ⟨4,  "SPL", some "socket power limit"⟩,
  ⟨5,  "FPPT", some "fast power limit"⟩,
  ⟨6,  "SPPT", some "sustained power limit"⟩,
  ⟨7,  "SPPT_APU", some "APU power limit"⟩,
  ⟨16, "TDC_GFX", some "current limit (gfx)"⟩,
  ⟨17, "TDC_SOC", some "current limit (soc)"⟩,
  ⟨18, "TDC_MEM", some "current limit (mem)"⟩,
  ⟨19, "TDC_VDD", some "current limit (vdd)"⟩,
  ⟨20, "TDC_CVIP", some "current limit (cvip)"⟩,
  ⟨21, "EDC_CPU", some "current limit (cpu)"⟩,
  ⟨22, "EDC_GFX", some "current limit (gfx)"⟩,
  ⟨23, "APCC", some "reliability limit"⟩,
  ⟨32, "TEMP_GPU", some "temperature (gpu)"⟩,
  ⟨33, "TEMP_CORE", some "temperature (core)"⟩,
  ⟨34, "TEMP_MEM", some "temperature (mem)"⟩,
  ⟨35, "TEMP_EDGE", some "temperature (edge)"⟩,
  ⟨36, "TEMP_HOTSPOT", some "temperature (hotspot)"⟩,
  ⟨37, "TEMP_SOC", some "temperature (soc)"⟩,
  ⟨38, "TEMP_VR_GFX", some "temperature (vr gfx)"⟩,
  ⟨39, "TEMP_VR_SOC", some "temperature (vr soc)"⟩,
  ⟨40, "TEMP_VR_MEM0", some "temperature (vr mem0)"⟩,
  ⟨41, "TEMP_VR_MEM1", some "temperature (vr mem1)"⟩,
  ⟨42, "TEMP_LIQUID0", some "temperature (liquid0)"⟩,
  ⟨43, "TEMP_LIQUID1", some "temperature (liquid1)"⟩,
  ⟨44, "VRHOT0", some "vr hot"⟩,
  ⟨45, "VRHOT1", some "vr hot"⟩,
  ⟨46, "PROCHOT_CPU", some "cpu prochot"⟩,
  ⟨47, "PROCHOT_GFX", some "gpu prochot"⟩,
  ⟨56, "PPM", some "power management"⟩,
  ⟨57, "FIT", some "reliability limit"⟩]

/-- ASIC-dependent mapping for Aldebaran (SMU13, SMC FW 68.xx). -/
def ald_throttle_bits : List bit_desc_t := [
  ⟨0,  "PPT0", some "pkg power (avg/filtered)"⟩,
  ⟨1,  "PPT1", some "pkg power (raw/spike)"⟩,
  ⟨2,  "TDC_GFX", some "current limit (gfx)"⟩,
  ⟨3,  "TDC_SOC", some "current limit (soc)"⟩,
  ⟨4,  "TDC_HBM", some "current limit (hbm)"⟩,
  ⟨6,  "TEMP_GPU", some "temperature (gpu)"⟩,
  ⟨7,  "TEMP_MEM", some "temperature (mem)"⟩,
  ⟨11, "TEMP_VR_GFX", some "temperature (vr gfx)"⟩,
  ⟨12, "TEMP_VR_SOC", some "temperature (vr soc)"⟩,
  ⟨13, "TEMP_VR_MEM", some "temperature (vr mem)"⟩,
  ⟨19, "APCC", some "reliability limit"⟩]

/-! ## Printing functions -/

/-- Source `print_u16_or_na(label, value, suffix)`: one `printf`, either the `N/A` line
or the value followed by the suffix (`suffix ? suffix : ""`). -/
def print_u16_or_na (label : String) (value : Nat) (suffix : Option String) : List String :=
  if value = UINT16_MAX then
    ["  " ++ label ++ ": N/A\n"]
  else
    ["  " ++ label ++ ": " ++ fmt_u value ++
      (match suffix with | some s => s | none => "") ++ "\n"]

/-- Body of the `if` inside the scanning loops of `print_set_bits64` and
`print_set_bits32`: `printf("%s %s%s%s", printed ? "," : "", label, desc ? " (" : "",
desc ? desc : "")` followed by `printf(")")` when `desc` is not `NULL`. -/
def print_reason (printed : Bool) (b : bit_desc_t) : List String :=
  [(if printed then "," else "") ++ " " ++ b.label ++
      (match b.desc with | some _ => " (" | none => "") ++
      (match b.desc with | some d => d | none => "")] ++
    (match b.desc with | some _ => [")"] | none => [])

/-- Source `print_set_bits64(label, value, bits, bit_count)`. The loop state is the pair
of the text written so far and the flag `printed`. The operand `1ULL << bits[i].bit` is the
shifted value reduced to 64 bits. This is the C operand for a bit position below 64; C
leaves a shift by 64 or more undefined, so a table with such an entry is outside what is
stated about this function (the table of the program stays below bit 58). -/
def print_set_bits64 (label : String) (value : Nat) (bits : List bit_desc_t) : List String :=
  if value = UINT64_MAX then
    ["  " ++ label ++ ": 0x" ++ fmt_0x 16 value ++ " (unavailable)\n"]
  else
    let st := bits.foldl
      (fun (st : List String × Bool) (b : bit_desc_t) =>
        if value &&& ((1 <<< b.bit) % 2 ^ 64) ≠ 0 then
          (st.1 ++ print_reason st.2 b, true)
        else st)
      (["  " ++ label ++ ": 0x" ++ fmt_0x 16 value ++ "\n", "  " ++ label ++ " reasons:"],
        false)
    st.1 ++ [(if st.2 then "" else " none") ++ "\n"]

/-- Source `print_set_bits32(label, value, bits, bit_count)`: no sentinel test, the table is
always scanned. The operand `1U << bits[i].bit` is the shifted value reduced to 32 bits. This
is the C operand for a bit position below 32; C leaves a shift by 32 or more undefined (the
table of the program stays below bit 20). -/
def print_set_bits32 (label : String) (value : Nat) (bits : List bit_desc_t) : List String :=
  let st := bits.foldl
    (fun (st : List String × Bool) (b : bit_desc_t) =>
      if value &&& ((1 <<< b.bit) % 2 ^ 32) ≠ 0 then
        (st.1 ++ print_reason st.2 b, true)
      else st)
    (["  " ++ label ++ ": 0x" ++ fmt_0x 8 value ++ "\n", "  " ++ label ++ " reasons:"],
      false)
  st.1 ++ [(if st.2 then "" else " none") ++ "\n"]

/-! ## Description of the decoder's results -/

/-- Whether the bit named by a table entry is set in a value. -/
def bit_is_set (value : Nat) (b : bit_desc_t) : Bool := value.testBit b.bit

/-- The table filtered, in declaration order, to the entries whose bit is set. -/
def matched (value : Nat) (bits : List bit_desc_t) : List bit_desc_t :=
  bits.filter (bit_is_set value)

/-- Text of one reason: a blank (first reason) or a comma and a blank, the entry's label,
and the entry's description in parentheses when it has one. -/
def reason_text (first : Bool) (b : bit_desc_t) : List String :=
  match b.desc with
  | some d => [(if first then " " else ", ") ++ b.label ++ " (" ++ d, ")"]
  | none => [(if first then " " else ", ") ++ b.label]

/-- Text of a reason list, entry by entry, in the list's order. -/
def reasons_text : Bool → List bit_desc_t → List String
  | _, [] => []
  | first, b :: rs => reason_text first b ++ reasons_text false rs

/-- The three results of bitmask decoding. -/
inductive decode_result where
  | unavailable
  | none
  | reasons (rs : List bit_desc_t)
deriving DecidableEq, Repr

/-- Output showing a result of decoding the 64-bit field. -/
def result_output64 (label : String) (value : Nat) : decode_result → List String
  | .unavailable => ["  " ++ label ++ ": 0x" ++ fmt_0x 16 value ++ " (unavailable)\n"]
  | .none =>
      ["  " ++ label ++ ": 0x" ++ fmt_0x 16 value ++ "\n", "  " ++ label ++ " reasons:",
        " none\n"]
  | .reasons rs =>
      ["  " ++ label ++ ": 0x" ++ fmt_0x 16 value ++ "\n", "  " ++ label ++ " reasons:"] ++
        reasons_text true rs ++ ["\n"]

/-- Output showing a result of decoding the 32-bit field. -/
def result_output32 (label : String) (value : Nat) : decode_result → List String
  | .unavailable => ["  " ++ label ++ ": 0x" ++ fmt_0x 8 value ++ " (unavailable)\n"]
  | .none =>
      ["  " ++ label ++ ": 0x" ++ fmt_0x 8 value ++ "\n", "  " ++ label ++ " reasons:",
        " none\n"]
  | .reasons rs =>
      ["  " ++ label ++ ": 0x" ++ fmt_0x 8 value ++ "\n", "  " ++ label ++ " reasons:"] ++
        reasons_text true rs ++ ["\n"]

/-- The result that decoding a value against a table should give when the value is not
the sentinel: `none` when no entry matches, the matched entries otherwise. -/
def scan_result (value : Nat) (bits : List bit_desc_t) : decode_result :=
  if matched value bits = [] then .none else .reasons (matched value bits)

/-- A table that declares bit position 0 twice. -/
def repeated_bit_table : List bit_desc_t := [
  ⟨0, "PPT0", some "pkg power (avg/filtered)"⟩,
  ⟨0, "PPT0_AGAIN", some "same bit"⟩]

/-! ## The metrics record and its layout -/

/-- Source `gpu_metrics_v13_t`. Every member is an unsigned integer of the width given in
`gpu_metrics_v13_members`; `temperature_hbm` is the array `uint16_t temperature_hbm[4]`. -/
structure gpu_metrics_v13_t where
  structure_size : Nat
  format_version : Nat
  content_version : Nat
  temperature_edge : Nat
  temperature_hotspot : Nat
  temperature_mem : Nat
  temperature_vrgfx : Nat
  temperature_vrsoc : Nat
  temperature_vrmem : Nat
  average_gfx_activity : Nat
  average_umc_activity : Nat
  average_mm_activity : Nat
  average_socket_power : Nat
  energy_accumulator : Nat
  system_clock_counter : Nat
  average_gfxclk_frequency : Nat
  average_socclk_frequency : Nat
  average_uclk_frequency : Nat
  average_vclk0_frequency : Nat
  average_dclk0_frequency : Nat
  average_vclk1_frequency : Nat
  average_dclk1_frequency : Nat
  current_gfxclk : Nat
  current_socclk : Nat
  current_uclk : Nat
  current_vclk0 : Nat
  current_dclk0 : Nat
  current_vclk1 : Nat
  current_dclk1 : Nat
  throttle_status : Nat
  current_fan_speed : Nat
  pcie_link_width : Nat
  pcie_link_speed : Nat
  padding : Nat
  gfx_activity_acc : Nat
  mem_activity_acc : Nat
  temperature_hbm : List Nat
  firmware_timestamp : Nat
  voltage_soc : Nat
  voltage_gfx : Nat
  voltage_mem : Nat
  padding1 : Nat
  indep_throttle_status : Nat
deriving DecidableEq, Repr

/-- Declaration of one struct member: its name, the size in bytes of its integer type
(1 for `uint8_t`, 2 for `uint16_t`, 4 for `uint32_t`, 8 for `uint64_t`) and its number of
elements (1 for a scalar). -/
structure member where
  name : String
  width : Nat
  count : Nat
deriving DecidableEq, Repr

/-- The member declarations of `gpu_metrics_v13_t`, in declaration order. -/
def gpu_metrics_v13_members : List member := [
  ⟨"structure_size", 2, 1⟩,
  ⟨"format_version", 1, 1⟩,
  ⟨"content_version", 1, 1⟩,
  ⟨"temperature_edge", 2, 1⟩,
  ⟨"temperature_hotspot", 2, 1⟩,
  ⟨"temperature_mem", 2, 1⟩,
  ⟨"temperature_vrgfx", 2, 1⟩,
  ⟨"temperature_vrsoc", 2, 1⟩,
  ⟨"temperature_vrmem", 2, 1⟩,
  ⟨"average_gfx_activity", 2, 1⟩,
  ⟨"average_umc_activity", 2, 1⟩,
  ⟨"average_mm_activity", 2, 1⟩,
  ⟨"average_socket_power", 2, 1⟩,
  ⟨"energy_accumulator", 8, 1⟩,
  ⟨"system_clock_counter", 8, 1⟩,
  ⟨"average_gfxclk_frequency", 2, 1⟩,
  ⟨"average_socclk_frequency", 2, 1⟩,
  ⟨"average_uclk_frequency", 2, 1⟩,
  ⟨"average_vclk0_frequency", 2, 1⟩,
  ⟨"average_dclk0_frequency", 2, 1⟩,
  ⟨"average_vclk1_frequency", 2, 1⟩,
  ⟨"average_dclk1_frequency", 2, 1⟩,
  ⟨"current_gfxclk", 2, 1⟩,
  ⟨"current_socclk", 2, 1⟩,
  ⟨"current_uclk", 2, 1⟩,
  ⟨"current_vclk0", 2, 1⟩,
  ⟨"current_dclk0", 2, 1⟩,
  ⟨"current_vclk1", 2, 1⟩,
  ⟨"current_dclk1", 2, 1⟩,
  ⟨"throttle_status", 4, 1⟩,
  ⟨"current_fan_speed", 2, 1⟩,
  ⟨"pcie_link_width", 2, 1⟩,
  ⟨"pcie_link_speed", 2, 1⟩,
  ⟨"padding", 2, 1⟩,
  ⟨"gfx_activity_acc", 4, 1⟩,
  ⟨"mem_activity_acc", 4, 1⟩,
  ⟨"temperature_hbm", 2, 4⟩,
  ⟨"firmware_timestamp", 8, 1⟩,
  ⟨"voltage_soc", 2, 1⟩,
  ⟨"voltage_gfx", 2, 1⟩,
  ⟨"voltage_mem", 2, 1⟩,
  ⟨"padding1", 2, 1⟩,
  ⟨"indep_throttle_status", 8, 1⟩]

/-- The least multiple of `a` that is at least `off`. -/
def align_up (off a : Nat) : Nat := (off + a - 1) / a * a

/-- Offsets of the members of a struct under natural alignment: each member starts at the
next multiple of the size of its integer type. -/
def member_offsets : Nat → List member → List Nat
  | _, [] => []
  | off, m :: ms =>
      align_up off m.width :: member_offsets (align_up off m.width + m.width * m.count) ms

/-- Offset just past the last member under natural alignment. -/
def members_end : Nat → List member → Nat
  | off, [] => off
  | off, m :: ms => members_end (align_up off m.width + m.width * m.count) ms

/-- Operator `sizeof` on a struct: the end of the last member rounded up to the largest
member alignment. -/
def sizeof_struct (ms : List member) : Nat :=
  align_up (members_end 0 ms) ((ms.map (fun m => m.width)).foldl max 1)

/-- Offsets of the members laid out one after the other with no padding at all. -/
def packed_offsets : Nat → List member → List Nat
  | _, [] => []
  | off, m :: ms => off :: packed_offsets (off + m.width * m.count) ms

/-- The expression `sizeof(gpu_metrics_v13_t)`, also `sizeof(metrics)` in `main`. -/
def sizeof_gpu_metrics_v13_t : Nat := sizeof_struct gpu_metrics_v13_members

/-- Width and offset of the member of `gpu_metrics_v13_t` with the given name. -/
def member_at (name : String) : Option (member × Nat) :=
  (gpu_metrics_v13_members.zip (member_offsets 0 gpu_metrics_v13_members)).find?
    (fun p => p.1.name == name)

/-- Little-endian value of the first `w` bytes of a byte sequence (missing bytes read
as 0; a memory cell holds a value below 256). -/
def le_read : Nat → List Nat → Nat
  | 0, _ => 0
  | _ + 1, [] => 0
  | w + 1, b :: bs => b % 256 + 256 * le_read w bs

/-- Read of element `idx` of the named member from the memory of a `gpu_metrics_v13_t`
object: the member's width in bytes at the member's offset, little-endian. -/
def load (buf : List Nat) (name : String) (idx : Nat) : Nat :=
  match member_at name with
  | some (m, off) => le_read m.width (buf.drop (off + m.width * idx))
  | none => 0

/-- The record seen through the members of a `gpu_metrics_v13_t` object whose memory holds
the bytes `buf`, as after `fread(&metrics, 1, sizeof(metrics), file)`. -/
def decode (buf : List Nat) : gpu_metrics_v13_t where
  structure_size := load buf "structure_size" 0
  format_version := load buf "format_version" 0
  content_version := load buf "content_version" 0
  temperature_edge := load buf "temperature_edge" 0
  temperature_hotspot := load buf "temperature_hotspot" 0
  temperature_mem := load buf "temperature_mem" 0
  temperature_vrgfx := load buf "temperature_vrgfx" 0
  temperature_vrsoc := load buf "temperature_vrsoc" 0
  temperature_vrmem := load buf "temperature_vrmem" 0
  average_gfx_activity := load buf "average_gfx_activity" 0
  average_umc_activity := load buf "average_umc_activity" 0
  average_mm_activity := load buf "average_mm_activity" 0
  average_socket_power := load buf "average_socket_power" 0
  energy_accumulator := load buf "energy_accumulator" 0
  system_clock_counter := load buf "system_clock_counter" 0
  average_gfxclk_frequency := load buf "average_gfxclk_frequency" 0
  average_socclk_frequency := load buf "average_socclk_frequency" 0
  average_uclk_frequency := load buf "average_uclk_frequency" 0
  average_vclk0_frequency := load buf "average_vclk0_frequency" 0
  average_dclk0_frequency := load buf "average_dclk0_frequency" 0
  average_vclk1_frequency := load buf "average_vclk1_frequency" 0
  average_dclk1_frequency := load buf "average_dclk1_frequency" 0
  current_gfxclk := load buf "current_gfxclk" 0
  current_socclk := load buf "current_socclk" 0
  current_uclk := load buf "current_uclk" 0
  current_vclk0 := load buf "current_vclk0" 0
  current_dclk0 := load buf "current_dclk0" 0
  current_vclk1 := load buf "current_vclk1" 0
  current_dclk1 := load buf "current_dclk1" 0
  throttle_status := load buf "throttle_status" 0
  current_fan_speed := load buf "current_fan_speed" 0
  pcie_link_width := load buf "pcie_link_width" 0
  pcie_link_speed := load buf "pcie_link_speed" 0
  padding := load buf "padding" 0
  gfx_activity_acc := load buf "gfx_activity_acc" 0
  mem_activity_acc := load buf "mem_activity_acc" 0
  temperature_hbm := (List.range 4).map (load buf "temperature_hbm")
  firmware_timestamp := load buf "firmware_timestamp" 0
  voltage_soc := load buf "voltage_soc" 0
  voltage_gfx := load buf "voltage_gfx" 0
  voltage_mem := load buf "voltage_mem" 0
  padding1 := load buf "padding1" 0
  indep_throttle_status := load buf "indep_throttle_status" 0

/-- The `w` little-endian bytes of a value. -/
def le_bytes : Nat → Nat → List Nat
  | 0, _ => []
  | w + 1, x => x % 256 :: le_bytes w (x / 256)

/-- The values held by a record, member by member in declaration order, each member as
the list of its elements. -/
def member_values (r : gpu_metrics_v13_t) : List (List Nat) := [
  [r.structure_size], [r.format_version], [r.content_version], [r.temperature_edge],
  [r.temperature_hotspot], [r.temperature_mem], [r.temperature_vrgfx],
  [r.temperature_vrsoc], [r.temperature_vrmem], [r.average_gfx_activity],
  [r.average_umc_activity], [r.average_mm_activity], [r.average_socket_power],
  [r.energy_accumulator], [r.system_clock_counter], [r.average_gfxclk_frequency],
  [r.average_socclk_frequency], [r.average_uclk_frequency], [r.average_vclk0_frequency],
  [r.average_dclk0_frequency], [r.average_vclk1_frequency], [r.average_dclk1_frequency],
  [r.current_gfxclk], [r.current_socclk], [r.current_uclk], [r.current_vclk0],
  [r.current_dclk0], [r.current_vclk1], [r.current_dclk1], [r.throttle_status],
  [r.current_fan_speed], [r.pcie_link_width], [r.pcie_link_speed], [r.padding],
  [r.gfx_activity_acc], [r.mem_activity_acc], r.temperature_hbm, [r.firmware_timestamp],
  [r.voltage_soc], [r.voltage_gfx], [r.voltage_mem], [r.padding1],
  [r.indep_throttle_status]]

/-- A record whose every member holds a value of its declared type: the declared number of
elements, each below `256 ^ width`. -/
def in_range (r : gpu_metrics_v13_t) : Prop :=
  ∀ p ∈ gpu_metrics_v13_members.zip (member_values r),
    p.2.length = p.1.count ∧ ∀ x ∈ p.2, x < 256 ^ p.1.width

instance (r : gpu_metrics_v13_t) : Decidable (in_range r) := by
  unfold in_range
  infer_instance

/-- The buffer built by concatenating every member's little-endian bytes in declaration
order, each element on the width declared for its member. -/
def encode (r : gpu_metrics_v13_t) : List Nat :=
  (gpu_metrics_v13_members.zip (member_values r)).flatMap
    (fun p => p.2.flatMap (le_bytes p.1.width))

/-- The record whose every member is zero. -/
def all_zero_record : gpu_metrics_v13_t :=
  ⟨0, 0, 0, 0, 0, 0, 0, 0, 0, 0, 0, 0, 0, 0, 0, 0, 0, 0, 0, 0, 0, 0, 0, 0, 0, 0, 0, 0, 0, 0,
    0, 0, 0, 0, 0, 0, [0, 0, 0, 0], 0, 0, 0, 0, 0, 0⟩

/-- The record whose every member holds the largest value of its type. -/
def all_max_record : gpu_metrics_v13_t :=
  ⟨65535, 255, 255, 65535, 65535, 65535, 65535, 65535, 65535, 65535, 65535, 65535, 65535,
    18446744073709551615, 18446744073709551615, 65535, 65535, 65535, 65535, 65535, 65535,
    65535, 65535, 65535, 65535, 65535, 65535, 65535, 65535, 4294967295, 65535, 65535, 65535,
    65535, 4294967295, 4294967295, [65535, 65535, 65535, 65535], 18446744073709551615, 65535,
    65535, 65535, 65535, 18446744073709551615⟩

/-! ## The report -/

/-- Source `print_gpu_metrics(card_id, metrics)`. -/
def print_gpu_metrics (card_id : Int) (metrics : gpu_metrics_v13_t) : List String :=
  ["\nGPU Metrics for Card " ++ fmt_d card_id ++ ":\n"] ++
  ["  Structure Size: " ++ fmt_u metrics.structure_size ++ " bytes\n"] ++
  ["  Format Version: " ++ fmt_u metrics.format_version ++ "\n"] ++
  ["  Content Version: " ++ fmt_u metrics.content_version ++ "\n"] ++
  print_u16_or_na "Temperature (Edge)" metrics.temperature_edge (some " C") ++
  print_u16_or_na "Temperature (Hotspot)" metrics.temperature_hotspot (some " C") ++
  print_u16_or_na "Temperature (Memory)" metrics.temperature_mem (some " C") ++
  print_u16_or_na "Temperature (VR GFX)" metrics.temperature_vrgfx (some " C") ++
  print_u16_or_na "Temperature (VR SoC)" metrics.temperature_vrsoc (some " C") ++
  print_u16_or_na "Temperature (VR MEM)" metrics.temperature_vrmem (some " C") ++
  print_u16_or_na "Average GFX Activity" metrics.average_gfx_activity (some " %") ++
  print_u16_or_na "Average UMC Activity" metrics.average_umc_activity (some " %") ++
  print_u16_or_na "Average MM Activity" metrics.average_mm_activity (some " %") ++
  print_u16_or_na "Average Socket Power" metrics.average_socket_power (some " W") ++
  ["  Energy Accumulator: " ++ fmt_u metrics.energy_accumulator ++ "\n"] ++
  ["  System Clock Counter: " ++ fmt_u metrics.system_clock_counter ++ " ns\n"] ++
  print_u16_or_na "Average GFX Clock" metrics.average_gfxclk_frequency (some " MHz") ++
  print_u16_or_na "Average SOC Clock" metrics.average_socclk_frequency (some " MHz") ++
  print_u16_or_na "Average UCLK" metrics.average_uclk_frequency (some " MHz") ++
  print_u16_or_na "Average VCLK0" metrics.average_vclk0_frequency (some " MHz") ++
  print_u16_or_na "Average DCLK0" metrics.average_dclk0_frequency (some " MHz") ++
  print_u16_or_na "Average VCLK1" metrics.average_vclk1_frequency (some " MHz") ++
  print_u16_or_na "Average DCLK1" metrics.average_dclk1_frequency (some " MHz") ++
  print_u16_or_na "Current GFX Clock" metrics.current_gfxclk (some " MHz") ++
  print_u16_or_na "Current SOC Clock" metrics.current_socclk (some " MHz") ++
  print_u16_or_na "Current UCLK" metrics.current_uclk (some " MHz") ++
  print_u16_or_na "Current VCLK0" metrics.current_vclk0 (some " MHz") ++
  print_u16_or_na "Current DCLK0" metrics.current_dclk0 (some " MHz") ++
  print_u16_or_na "Current VCLK1" metrics.current_vclk1 (some " MHz") ++
  print_u16_or_na "Current DCLK1" metrics.current_dclk1 (some " MHz") ++
  print_u16_or_na "Fan Speed" metrics.current_fan_speed (some " RPM") ++
  print_u16_or_na "PCIe Link Width" metrics.pcie_link_width (some "") ++
  ["  PCIe Link Speed: " ++ fmt_1f (double_div10 metrics.pcie_link_speed) ++
      " GT/s (raw " ++ fmt_u metrics.pcie_link_speed ++ ")\n"] ++
  ["  GFX Activity Acc: " ++ fmt_u metrics.gfx_activity_acc ++ "\n"] ++
  ["  MEM Activity Acc: " ++ fmt_u metrics.mem_activity_acc ++ "\n"] ++
  ((List.range 4).map (fun i =>
      print_u16_or_na ("Temperature (HBM" ++ fmt_u i ++ ")")
        (metrics.temperature_hbm.getD i 0) (some " C"))).flatten ++
  ["  Firmware Timestamp: " ++ fmt_u metrics.firmware_timestamp ++ " (10ns)\n"] ++
  print_u16_or_na "Voltage (SoC)" metrics.voltage_soc (some " mV") ++
  print_u16_or_na "Voltage (GFX)" metrics.voltage_gfx (some " mV") ++
  print_u16_or_na "Voltage (Memory)" metrics.voltage_mem (some " mV") ++
  ["  Note: throttle_status is ASIC-dependent; indep_throttle_status is normalized.\n"] ++
  print_set_bits32 "throttle_status" metrics.throttle_status ald_throttle_bits ++
  print_set_bits64 "indep_throttle_status" metrics.indep_throttle_status
    indep_throttler_bits

/-! ## Reading one card in `main` -/

/-- The variables of `main` that the body of the scanning loop changes: the text written to
standard output and to standard error, `found`, `found_requested`, and whether the loop
was left by `break`. -/
structure main_state where
  out : List String
  err : List String
  found : Nat
  found_requested : Bool
  stopped : Bool
deriving DecidableEq, Repr

/-- Source `main`, the part of the loop body from `fread` to the end of the body, for a
card whose `gpu_metrics` file was opened and holds the bytes `file`. The call
`fread(&metrics, 1, sizeof(metrics), file)` stores the first `sizeof(metrics)` bytes of the
file and returns how many bytes it stored. -/
def main_read_metrics (list_all : Bool) (requested_card card_id : Int) (file : List Nat)
    (st : main_state) : main_state :=
  let metrics := file.take sizeof_gpu_metrics_v13_t
  let read_size := min file.length sizeof_gpu_metrics_v13_t
  if read_size < sizeof_gpu_metrics_v13_t then
    { st with err := st.err ++
        ["Error reading GPU metrics for card " ++ fmt_d card_id ++ ": expected " ++
          fmt_u sizeof_gpu_metrics_v13_t ++ " bytes, read " ++ fmt_u read_size ++
          " bytes\n"] }
  else
    let st1 := { st with
      out := st.out ++ print_gpu_metrics card_id (decode metrics)
      found := st.found + 1 }
    if !list_all && card_id == requested_card then
      { st1 with found_requested := true, stopped := true }
    else st1

/-! ## Parsing a card name -/

def INT32_MAX : Int := 2147483647

def LONG_MAX : Int := 9223372036854775807

def LONG_MIN : Int := -9223372036854775808

def ERANGE : Nat := 34

/-- The characters of a C string held in a buffer: those before the first NUL. -/
def c_str (s : String) : List Char := s.data.takeWhile (fun c => c ≠ '\x00')

/-- C library `isdigit` in the "C" locale. -/
def isdigit (c : Char) : Bool := c.isDigit

/-- C library `isspace` in the "C" locale: space, `\t`, `\n`, `\v`, `\f`, `\r`. -/
def isspace (c : Char) : Bool :=
  c = ' ' || c = '\t' || c = '\n' || c = '\x0b' || c = '\x0c' || c = '\r'

/-- Whether C library `strncmp(a, b, n)` returns 0: the strings agree on their first `n`
characters (a string shorter than `n` ends the comparison at its end). -/
def strncmp_eq (a b : List Char) (n : Nat) : Bool := a.take n = b.take n

/-- Accumulation of decimal digits as `strtol` does it, most significant digit first. -/
def accumulate_digits (acc : Nat) (ds : List Char) : Nat :=
  ds.foldl (fun a c => 10 * a + (c.toNat - '0'.toNat)) acc

/-- What a call of `strtol` leaves: the returned value, the characters from `*endptr` on,
and `errno` (0 when the call does not set it, the caller having cleared it). -/
structure strtol_result where
  value : Int
  endp : List Char
  errno : Nat
deriving DecidableEq, Repr

/-- C library `strtol(p, &end, 10)` with `long` of 64 bits, called with `errno = 0`: white
space is skipped, an optional sign is read, then the longest run of decimal digits. Without
any digit nothing is converted and `end` is `p`. A value outside the range of `long` is
replaced by `LONG_MAX` or `LONG_MIN` and `errno` is set to `ERANGE`. -/
def strtol (p : List Char) : strtol_result :=
  let s := p.dropWhile isspace
  let negative := s.head? = some '-'
  let body := if s.head? = some '-' ∨ s.head? = some '+' then s.tail else s
  let ds := body.takeWhile isdigit
  if ds = [] then ⟨0, p, 0⟩
  else
    let v : Int := if negative then -(accumulate_digits 0 ds : Int) else accumulate_digits 0 ds
    if v > LONG_MAX then ⟨LONG_MAX, body.dropWhile isdigit, ERANGE⟩
    else if v < LONG_MIN then ⟨LONG_MIN, body.dropWhile isdigit, ERANGE⟩
    else ⟨v, body.dropWhile isdigit, 0⟩

/-- The loop `for (q = p; *q != 0; ++q) if (!isdigit(*q)) return 0;` of `parse_card_id`:
whether the loop runs to the end of the string. -/
def all_digits : List Char → Bool
  | [] => true
  | c :: cs => if !isdigit c then false else all_digits cs

/-- Conversion of an integer to `int` (32 bits, two's complement). -/
def to_int32 (x : Int) : Int := (x + 2147483648) % 4294967296 - 2147483648

/-- Source `parse_card_id(name, card_id)`: the returned value and the content of `*card_id`
after the call, given its content before the call. -/
def parse_card_id (name : String) (card_id : Int) : Int × Int :=
  if !strncmp_eq (c_str name) (c_str "card") 4 then (0, card_id)
  else if (c_str name).drop 4 = [] then (0, card_id)
  else if !all_digits ((c_str name).drop 4) then (0, card_id)
  else
    let r := strtol ((c_str name).drop 4)
    if r.errno ≠ 0 ∨ r.endp ≠ [] ∨ r.value < 0 ∨ r.value > INT32_MAX then (0, card_id)
    else (1, to_int32 r.value)

/-- The number written by a sequence of decimal digits: each digit times the power of ten
of its position. -/
def decimal_value : List Char → Nat
  | [] => 0
  | c :: cs => (c.toNat - 48) * 10 ^ cs.length + decimal_value cs

/-! ## The step_function benchmark -/

/-- Conversion of an integer to `uint64_t`. -/
def to_uint64 (x : Int) : Nat := (x % 18446744073709551616).toNat

/-- Source `step_function.cpp`, `main`, lines 53 and 56: `n` is `1024*1024*1024` unless the
option `--vector_size` is given; then it is the `int` returned by `std::stoi`, converted to
`uint64_t`. The argument is that `int`, absent when the option is absent. -/
def vector_size (arg : Option Int) : Nat :=
  match arg with
  | none => 1024 * 1024 * 1024
  | some v => to_uint64 v

/-- Source `step_function.cpp`, `main`, lines 68 to 70: the text written to standard output
and the value of `n` afterwards. -/
def check_vector_size (rank : Int) (n : Nat) : List String × Nat :=
  if n < 134217728 then
    if rank = 0 then (["WARNING: vector_size is too small. setting to 134217728\n"], n)
    else ([], n)
  else ([], n)

/-- The variables `factor`, `blockSize`, `gridSize` and `numThreads` of `main`. -/
structure launch_vars where
  factor : Int
  blockSize : Int
  gridSize : Int
  numThreads : Int
deriving DecidableEq, Repr

/-- Source `step_function.cpp`, `main`, lines 98 to 101. Every value assigned to an `int`
is reduced to 32 bits. -/
def launch_config (n : Nat) : launch_vars :=
  let factor := to_int32 ((n / 134217728 : Nat) : Int)
  let blockSize := 256
  let gridSize := to_int32 (228 * 128 * factor)
  let numThreads := to_int32 (gridSize * blockSize)
  ⟨factor, blockSize, gridSize, numThreads⟩

/-- Source `step_function.cpp`, `main`, line 110: the expression
`n / (gridSize * blockSize)`, whose `int` divisor is converted to `uint64_t`; no value
when the divisor is zero. -/
def elements_per_thread (n : Nat) (v : launch_vars) : Option Nat :=
  if to_uint64 (to_int32 (v.gridSize * v.blockSize)) = 0 then none
  else some (n / to_uint64 (to_int32 (v.gridSize * v.blockSize)))

/-! ## Lemmas on the scanning loop -/

theorem and_shift64_ne_zero_iff {v : Nat} (hv : v < 2 ^ 64) (n : Nat) :
    v &&& ((1 <<< n) % 2 ^ 64) ≠ 0 ↔ v.testBit n = true := by
  rw [Nat.one_shiftLeft]
  by_cases hn : n < 64
  · rw [Nat.mod_eq_of_lt (Nat.pow_lt_pow_right (by norm_num) hn), Nat.and_two_pow]
    cases h : v.testBit n <;> simp
  · have hle : 2 ^ 64 ≤ 2 ^ n := Nat.pow_le_pow_right (by norm_num) (by omega)
    have h0 : 2 ^ n % 2 ^ 64 = 0 :=
      Nat.mod_eq_zero_of_dvd (Nat.pow_dvd_pow 2 (by omega))
    rw [h0, Nat.testBit_lt_two_pow (lt_of_lt_of_le hv hle)]
    simp

theorem and_shift32_ne_zero_iff {v : Nat} (hv : v < 2 ^ 32) (n : Nat) :
    v &&& ((1 <<< n) % 2 ^ 32) ≠ 0 ↔ v.testBit n = true := by
  rw [Nat.one_shiftLeft]
  by_cases hn : n < 32
  · rw [Nat.mod_eq_of_lt (Nat.pow_lt_pow_right (by norm_num) hn), Nat.and_two_pow]
    cases h : v.testBit n <;> simp
  · have hle : 2 ^ 32 ≤ 2 ^ n := Nat.pow_le_pow_right (by norm_num) (by omega)
    have h0 : 2 ^ n % 2 ^ 32 = 0 :=
      Nat.mod_eq_zero_of_dvd (Nat.pow_dvd_pow 2 (by omega))
    rw [h0, Nat.testBit_lt_two_pow (lt_of_lt_of_le hv hle)]
    simp

theorem print_reason_eq (printed : Bool) (b : bit_desc_t) :
    print_reason printed b = reason_text (!printed) b := by
  unfold print_reason reason_text
  cases printed <;> cases b.desc <;> simp [String.ext_iff]

theorem scan_foldl (t : bit_desc_t → Bool) (bits : List bit_desc_t) :
    ∀ (acc : List String) (p : Bool),
      List.foldl
        (fun (st : List String × Bool) (b : bit_desc_t) =>
          if t b = true then (st.1 ++ print_reason st.2 b, true) else st)
        (acc, p) bits
      = (acc ++ reasons_text (!p) (bits.filter t), p || !(bits.filter t).isEmpty) := by
  induction bits with
  | nil => intro acc p; simp [reasons_text]
  | cons b bs ih =>
    intro acc p
    by_cases hb : t b = true
    · rw [List.foldl_cons, if_pos hb, ih]
      simp [hb, reasons_text, print_reason_eq, List.append_assoc]
    · rw [List.foldl_cons, if_neg hb, ih]
      simp [hb]

theorem print_set_bits64_scan (label : String) {v : Nat} (hv : v < 2 ^ 64)
    (hne : v ≠ UINT64_MAX) (bits : List bit_desc_t) :
    print_set_bits64 label v bits = result_output64 label v (scan_result v bits) := by
  unfold print_set_bits64
  rw [if_neg hne]
  simp only [and_shift64_ne_zero_iff hv]
  have h := scan_foldl (bit_is_set v) bits
    ["  " ++ label ++ ": 0x" ++ fmt_0x 16 v ++ "\n", "  " ++ label ++ " reasons:"] false
  simp only [bit_is_set] at h
  rw [h]
  unfold scan_result matched
  by_cases hm : List.filter (bit_is_set v) bits = []
  · simp only [bit_is_set] at hm
    simp [hm, result_output64, reasons_text]
  · simp only [bit_is_set] at hm
    simp [hm, result_output64, bit_is_set]

theorem print_set_bits32_scan (label : String) {v : Nat} (hv : v < 2 ^ 32)
    (bits : List bit_desc_t) :
    print_set_bits32 label v bits = result_output32 label v (scan_result v bits) := by
  unfold print_set_bits32
  simp only [and_shift32_ne_zero_iff hv]
  have h := scan_foldl (bit_is_set v) bits
    ["  " ++ label ++ ": 0x" ++ fmt_0x 8 v ++ "\n", "  " ++ label ++ " reasons:"] false
  simp only [bit_is_set] at h
  rw [h]
  unfold scan_result matched
  by_cases hm : List.filter (bit_is_set v) bits = []
  · simp only [bit_is_set] at hm
    simp [hm, result_output32, reasons_text]
  · simp only [bit_is_set] at hm
    simp [hm, result_output32, bit_is_set]

/-! ## Lemmas on decimal rendering -/

theorem digitChar_ne_N : ∀ d, d < 10 → Nat.digitChar d ≠ 'N' := by decide

theorem toDigitsCore_ne_N : ∀ (fuel n : Nat) (ds : List Char), (∀ c ∈ ds, c ≠ 'N') →
    ∀ c ∈ Nat.toDigitsCore 10 fuel n ds, c ≠ 'N' := by
  intro fuel
  induction fuel with
  | zero => intro n ds h; simpa [Nat.toDigitsCore] using h
  | succ f ih =>
    intro n ds h
    have hd : ∀ c ∈ Nat.digitChar (n % 10) :: ds, c ≠ 'N' := by
      intro c hc
      rcases List.mem_cons.1 hc with rfl | hc
      · exact digitChar_ne_N _ (Nat.mod_lt _ (by norm_num))
      · exact h c hc
    simp only [Nat.toDigitsCore]
    split
    · exact hd
    · exact ih _ _ hd

theorem toDigitsCore_ne_nil : ∀ (fuel n : Nat) (ds : List Char), ds ≠ [] →
    Nat.toDigitsCore 10 fuel n ds ≠ [] := by
  intro fuel
  induction fuel with
  | zero => intro n ds h; simpa [Nat.toDigitsCore] using h
  | succ f ih =>
    intro n ds _
    simp only [Nat.toDigitsCore]
    split
    · simp
    · exact ih _ _ (by simp)

theorem fmt_u_head_ne_N (n : Nat) : ∃ c cs, (fmt_u n).data = c :: cs ∧ c ≠ 'N' := by
  have hd : (fmt_u n).data = Nat.toDigitsCore 10 (n + 1) n [] := rfl
  rw [hd]
  have h1 : Nat.toDigitsCore 10 (n + 1) n [] ≠ [] := by
    simp only [Nat.toDigitsCore]
    split
    · simp
    · exact toDigitsCore_ne_nil _ _ _ (by simp)
  have h2 := toDigitsCore_ne_N (n + 1) n [] (by simp)
  cases h : Nat.toDigitsCore 10 (n + 1) n [] with
  | nil => exact absurd h h1
  | cons c cs => exact ⟨c, cs, rfl, h2 c (by simp [h])⟩

theorem value_line_ne_na_line (label s : String) (v : Nat) :
    "  " ++ label ++ ": " ++ fmt_u v ++ s ++ "\n" ≠ "  " ++ label ++ ": N/A\n" := by
  intro h
  obtain ⟨c, cs, hc, hN⟩ := fmt_u_head_ne_N v
  rw [String.ext_iff] at h
  simp only [String.data_append, List.append_assoc, List.append_cancel_left_eq] at h
  rw [hc] at h
  simp at h
  exact hN h.1

/-! ## Distinctness of the three outputs -/

theorem result_output64_last (label : String) (v : Nat) (rs : List bit_desc_t) :
    (result_output64 label v (.reasons rs)).getLast? = some "\n" := by
  have h : result_output64 label v (.reasons rs) =
      (["  " ++ label ++ ": 0x" ++ fmt_0x 16 v ++ "\n", "  " ++ label ++ " reasons:"] ++
        reasons_text true rs) ++ ["\n"] := rfl
  rw [h, List.getLast?_concat]

theorem result_output64_reasons_ne_none (label : String) (v : Nat) (rs : List bit_desc_t) :
    result_output64 label v (.reasons rs) ≠ result_output64 label v .none := by
  intro h
  have h2 := congrArg List.getLast? h
  rw [result_output64_last] at h2
  simp [result_output64] at h2

theorem result_output64_reasons_ne_unavailable (label : String) (v : Nat)
    (rs : List bit_desc_t) :
    result_output64 label v (.reasons rs) ≠ result_output64 label v .unavailable := by
  intro h
  have h2 := congrArg List.length h
  simp [result_output64] at h2

theorem result_output64_none_ne_unavailable (label : String) (v : Nat) :
    result_output64 label v .none ≠ result_output64 label v .unavailable := by
  intro h
  have h2 := congrArg List.length h
  simp [result_output64] at h2

theorem matched_eq_nil_iff (v : Nat) (bits : List bit_desc_t) :
    matched v bits = [] ↔ ∀ b ∈ bits, v.testBit b.bit = false := by
  simp [matched, bit_is_set, List.filter_eq_nil_iff]

theorem matched_ne_nil_iff (v : Nat) (bits : List bit_desc_t) :
    matched v bits ≠ [] ↔ ∃ b ∈ bits, v.testBit b.bit = true := by
  rw [Ne, matched_eq_nil_iff]
  simp

/-! ## Lemmas on the record layout -/

set_option maxRecDepth 100000 in
theorem decode_eq (buf : List Nat) :
    decode buf = {
      structure_size := le_read 2 (buf.drop 0),
      format_version := le_read 1 (buf.drop 2),
      content_version := le_read 1 (buf.drop 3),
      temperature_edge := le_read 2 (buf.drop 4),
      temperature_hotspot := le_read 2 (buf.drop 6),
      temperature_mem := le_read 2 (buf.drop 8),
      temperature_vrgfx := le_read 2 (buf.drop 10),
      temperature_vrsoc := le_read 2 (buf.drop 12),
      temperature_vrmem := le_read 2 (buf.drop 14),
      average_gfx_activity := le_read 2 (buf.drop 16),
      average_umc_activity := le_read 2 (buf.drop 18),
      average_mm_activity := le_read 2 (buf.drop 20),
      average_socket_power := le_read 2 (buf.drop 22),
      energy_accumulator := le_read 8 (buf.drop 24),
      system_clock_counter := le_read 8 (buf.drop 32),
      average_gfxclk_frequency := le_read 2 (buf.drop 40),
      average_socclk_frequency := le_read 2 (buf.drop 42),
      average_uclk_frequency := le_read 2 (buf.drop 44),
      average_vclk0_frequency := le_read 2 (buf.drop 46),
      average_dclk0_frequency := le_read 2 (buf.drop 48),
      average_vclk1_frequency := le_read 2 (buf.drop 50),
      average_dclk1_frequency := le_read 2 (buf.drop 52),
      current_gfxclk := le_read 2 (buf.drop 54),
      current_socclk := le_read 2 (buf.drop 56),
      current_uclk := le_read 2 (buf.drop 58),
      current_vclk0 := le_read 2 (buf.drop 60),
      current_dclk0 := le_read 2 (buf.drop 62),
      current_vclk1 := le_read 2 (buf.drop 64),
      current_dclk1 := le_read 2 (buf.drop 66),
      throttle_status := le_read 4 (buf.drop 68),
      current_fan_speed := le_read 2 (buf.drop 72),
      pcie_link_width := le_read 2 (buf.drop 74),
      pcie_link_speed := le_read 2 (buf.drop 76),
      padding := le_read 2 (buf.drop 78),
      gfx_activity_acc := le_read 4 (buf.drop 80),
      mem_activity_acc := le_read 4 (buf.drop 84),
      temperature_hbm := [le_read 2 (buf.drop 88), le_read 2 (buf.drop 90),
        le_read 2 (buf.drop 92), le_read 2 (buf.drop 94)],
      firmware_timestamp := le_read 8 (buf.drop 96),
      voltage_soc := le_read 2 (buf.drop 104),
      voltage_gfx := le_read 2 (buf.drop 106),
      voltage_mem := le_read 2 (buf.drop 108),
      padding1 := le_read 2 (buf.drop 110),
      indep_throttle_status := le_read 8 (buf.drop 112) } := by
  rfl

set_option maxRecDepth 100000 in
theorem sizeof_gpu_metrics_v13_t_eq : sizeof_gpu_metrics_v13_t = 120 := by decide

set_option maxRecDepth 100000 in
set_option maxHeartbeats 4000000 in
theorem decode_encode (r : gpu_metrics_v13_t) (h : in_range r) :
    (encode r).length = 120 ∧ decode (encode r) = r := by
  obtain ⟨f1, f2, f3, f4, f5, f6, f7, f8, f9, f10, f11, f12, f13, f14, f15, f16, f17, f18,
    f19, f20, f21, f22, f23, f24, f25, f26, f27, f28, f29, f30, f31, f32, f33, f34, f35, f36,
    hbm, f38, f39, f40, f41, f42, f43⟩ := r
  simp [in_range, gpu_metrics_v13_members, member_values] at h
  obtain ⟨h1, h2, h3, h4, h5, h6, h7, h8, h9, h10, h11, h12, h13, h14, h15, h16, h17, h18,
    h19, h20, h21, h22, h23, h24, h25, h26, h27, h28, h29, h30, h31, h32, h33, h34, h35, h36,
    ⟨hl, hb⟩, h38, h39, h40, h41, h42, h43⟩ := h
  rcases hbm with _ | ⟨a, _ | ⟨b, _ | ⟨c, _ | ⟨d, _ | ⟨e, t⟩⟩⟩⟩⟩ <;> simp at hl
  simp at hb
  obtain ⟨ha, hb, hc, hd⟩ := hb
  constructor
  · simp [encode, member_values, gpu_metrics_v13_members, le_bytes]
  · rw [decode_eq]
    simp [encode, member_values, gpu_metrics_v13_members, le_bytes, le_read]
    refine ⟨?_, ?_, ?_, ?_, ?_, ?_, ?_, ?_, ?_, ?_, ?_, ?_, ?_, ?_, ?_, ?_, ?_, ?_, ?_, ?_,
      ?_, ?_, ?_, ?_, ?_, ?_, ?_, ?_, ?_, ?_, ?_, ?_, ?_, ?_, ?_, ?_, ⟨?_, ?_, ?_, ?_⟩,
      ?_, ?_, ?_, ?_, ?_, ?_⟩ <;> omega

/-! ## Lemmas on the report -/

theorem print_u16_or_na_eq (label : String) (v : Nat) (suffix : Option String) :
    print_u16_or_na label v suffix =
      [if v = UINT16_MAX then "  " ++ label ++ ": N/A\n"
        else "  " ++ label ++ ": " ++ fmt_u v ++ suffix.getD "" ++ "\n"] := by
  unfold print_u16_or_na
  split <;> cases suffix <;> rfl

theorem print_gpu_metrics_lines (card_id : Int) (m : gpu_metrics_v13_t) :
    (print_gpu_metrics card_id m)[4]? =
      some (if m.temperature_edge = UINT16_MAX then "  Temperature (Edge): N/A\n"
        else "  Temperature (Edge): " ++ fmt_u m.temperature_edge ++ " C\n") ∧
    (print_gpu_metrics card_id m)[13]? =
      some (if m.average_socket_power = UINT16_MAX then "  Average Socket Power: N/A\n"
        else "  Average Socket Power: " ++ fmt_u m.average_socket_power ++ " W\n") ∧
    (print_gpu_metrics card_id m)[32]? =
      some ("  PCIe Link Speed: " ++ fmt_1f (double_div10 m.pcie_link_speed) ++
        " GT/s (raw " ++ fmt_u m.pcie_link_speed ++ ")\n") ∧
    (print_gpu_metrics card_id m).drop 44 =
      print_set_bits32 "throttle_status" m.throttle_status ald_throttle_bits ++
        print_set_bits64 "indep_throttle_status" m.indep_throttle_status
          indep_throttler_bits := by
  unfold print_gpu_metrics
  simp only [print_u16_or_na_eq, show List.range 4 = [0, 1, 2, 3] from rfl, List.map,
    List.flatten, List.append_assoc, List.cons_append, List.nil_append, List.append_nil]
  refine ⟨?_, ?_, ?_, ?_⟩
  · simp [String.append_assoc]
  · simp [String.append_assoc]
  · simp
  · simp

/-! ## Lemmas on the quotient by ten and its rendering -/

theorem div10_scale_spec (x : Nat) (hx : 1 ≤ x) : 10 * 2 ^ 52 ≤ x * 2 ^ div10_scale x := by
  unfold div10_scale
  cases h : (List.range 57).find? (fun k => decide (10 * 2 ^ 52 ≤ x * 2 ^ k)) with
  | none =>
    simp only [Option.getD_none]
    calc 10 * 2 ^ 52 ≤ 1 * 2 ^ 56 := by norm_num
      _ ≤ x * 2 ^ 56 := Nat.mul_le_mul_right _ hx
  | some k =>
    simp only [Option.getD_some]
    have := List.find?_some h
    simpa using this

theorem round_half_even_ten (a : Nat) :
    10 * round_half_even a 10 ≤ a + 5 ∧ a ≤ 10 * round_half_even a 10 + 5 := by
  unfold round_half_even
  split_ifs <;> omega

theorem round_half_even_near (r P n : Nat) (hr : 1 ≤ r) (hP : 10 < P)
    (h1 : n ≤ r * P + 5) (h2 : r * P ≤ n + 5) : round_half_even n P = r := by
  have hP0 : 0 < P := by omega
  by_cases hge : r * P ≤ n
  · obtain ⟨e, rfl⟩ := Nat.exists_eq_add_of_le hge
    have he : e < P := by omega
    have hd : (r * P + e) / P = r := by
      rw [Nat.mul_comm, Nat.mul_add_div hP0, Nat.div_eq_of_lt he, Nat.add_zero]
    have hm : (r * P + e) % P = e := by
      rw [Nat.mul_comm, Nat.mul_add_mod, Nat.mod_eq_of_lt he]
    unfold round_half_even
    rw [hd, hm, if_pos (by omega)]
  · obtain ⟨q, rfl⟩ : ∃ q, r = q + 1 := ⟨r - 1, by omega⟩
    have hexp : (q + 1) * P = q * P + P := by ring
    rw [hexp] at h2 hge
    obtain ⟨e, he⟩ : ∃ e, n = q * P + e := ⟨n - q * P, by omega⟩
    subst he
    have heP : e < P := by omega
    have hd : (q * P + e) / P = q := by
      rw [Nat.mul_comm, Nat.mul_add_div hP0, Nat.div_eq_of_lt heP, Nat.add_zero]
    have hm : (q * P + e) % P = e := by
      rw [Nat.mul_comm, Nat.mul_add_mod, Nat.mod_eq_of_lt heP]
    unfold round_half_even
    rw [hd, hm, if_neg (by omega), if_pos (by omega)]

theorem fmt_1f_double_div10 (r : Nat) (hr : r < 2 ^ 16) :
    fmt_1f (double_div10 r) = fmt_u (r / 10) ++ "." ++ fmt_u (r % 10) := by
  have key : round_half_even (10 * (double_div10 r).1) (2 ^ (double_div10 r).2) = r := by
    unfold double_div10
    by_cases h0 : r = 0
    · subst h0
      decide
    · rw [if_neg h0]
      have hs := div10_scale_spec r (by omega)
      have hb := round_half_even_ten (r * 2 ^ div10_scale r)
      have hP : 10 < 2 ^ div10_scale r := by
        by_contra hle
        have : r * 2 ^ div10_scale r ≤ 65536 * 10 :=
          Nat.mul_le_mul (by omega) (by omega)
        omega
      exact round_half_even_near r _ _ (by omega) hP hb.1 hb.2
  unfold fmt_1f
  rw [key]

/-! ## Lemmas on integer conversions -/

theorem to_int32_of_range (x : Int) (h1 : -2147483648 ≤ x) (h2 : x ≤ 2147483647) :
    to_int32 x = x := by
  unfold to_int32
  omega

theorem to_uint64_of_range (x : Int) (h1 : 0 ≤ x) (h2 : x < 18446744073709551616) :
    to_uint64 x = x.toNat := by
  unfold to_uint64
  rw [Int.emod_eq_of_lt h1 h2]

/-! ## Lemmas on parsing a card name -/

theorem c_str_of_no_nul (s : String) (h : '\x00' ∉ s.data) : c_str s = s.data := by
  unfold c_str
  rw [List.takeWhile_eq_self_iff]
  intro c hc
  simp only [decide_eq_true_eq]
  rintro rfl
  exact h hc

theorem all_digits_iff (l : List Char) :
    all_digits l = true ↔ ∀ c ∈ l, c.isDigit = true := by
  induction l with
  | nil => simp [all_digits]
  | cons c cs ih =>
    simp only [all_digits, isdigit, List.mem_cons, forall_eq_or_imp]
    by_cases hc : c.isDigit = true
    · simp [hc, ih]
    · simp [hc]

theorem accumulate_digits_eq (ds : List Char) : ∀ acc : Nat,
    accumulate_digits acc ds = acc * 10 ^ ds.length + decimal_value ds := by
  induction ds with
  | nil => intro acc; simp [accumulate_digits, decimal_value]
  | cons c cs ih =>
    intro acc
    have h := ih (10 * acc + (c.toNat - '0'.toNat))
    simp only [accumulate_digits, List.foldl_cons] at h ⊢
    rw [h]
    have h0 : '0'.toNat = 48 := rfl
    simp only [decimal_value, List.length_cons, h0]
    ring

theorem isDigit_not_space (c : Char) (h : c.isDigit = true) : isspace c = false := by
  unfold isspace
  simp only [Bool.or_eq_false_iff, decide_eq_false_iff_not]
  refine ⟨⟨⟨⟨⟨?_, ?_⟩, ?_⟩, ?_⟩, ?_⟩, ?_⟩ <;> (rintro rfl; exact absurd h (by decide))

theorem isDigit_not_sign (c : Char) (h : c.isDigit = true) : c ≠ '-' ∧ c ≠ '+' := by
  constructor <;> (rintro rfl; exact absurd h (by decide))

theorem strtol_of_digits (p : List Char) (hne : p ≠ []) (hd : ∀ c ∈ p, c.isDigit = true) :
    strtol p =
      if (decimal_value p : Int) > LONG_MAX then ⟨LONG_MAX, [], ERANGE⟩
      else ⟨decimal_value p, [], 0⟩ := by
  obtain ⟨c, cs, rfl⟩ := List.exists_cons_of_ne_nil hne
  have hc := hd c (by simp)
  have hs : List.dropWhile isspace (c :: cs) = c :: cs := by
    simp [List.dropWhile, isDigit_not_space c hc]
  have htake : List.takeWhile isdigit (c :: cs) = c :: cs := by
    rw [List.takeWhile_eq_self_iff]
    intro x hx
    exact hd x hx
  have hdrop : List.dropWhile isdigit (c :: cs) = [] := by
    rw [List.dropWhile_eq_nil_iff]
    intro x hx
    exact hd x hx
  have hm : ¬ (some c = some '-') := by
    simp [(isDigit_not_sign c hc).1]
  have hpl : ¬ (some c = some '+') := by
    simp [(isDigit_not_sign c hc).2]
  unfold strtol
  simp only [hs, List.head?_cons, hm, hpl, or_self, if_false, htake, hdrop, decide_False,
    Bool.false_eq_true]
  rw [if_neg (by simp)]
  have hacc := accumulate_digits_eq (c :: cs) 0
  simp only [Nat.zero_mul, Nat.zero_add] at hacc
  rw [hacc]
  split_ifs with h1 h2
  · rfl
  · exfalso
    unfold LONG_MIN at h2
    omega
  · rfl

theorem parse_card_id_accept (name : String) (card_id : Int) (h : '\x00' ∉ name.data)
    (h1 : name.data.take 4 = ['c', 'a', 'r', 'd']) (h2 : name.data.drop 4 ≠ [])
    (h3 : ∀ c ∈ name.data.drop 4, c.isDigit = true)
    (h4 : decimal_value (name.data.drop 4) ≤ 2147483647) :
    parse_card_id name card_id = (1, (decimal_value (name.data.drop 4) : Int)) := by
  have hcard : c_str "card" = ['c', 'a', 'r', 'd'] := by decide
  have h3b : all_digits (name.data.drop 4) = true := (all_digits_iff _).2 h3
  have h5 : ¬ ((decimal_value (name.data.drop 4) : Int) > LONG_MAX) := by
    unfold LONG_MAX
    omega
  have h6 : to_int32 (decimal_value (name.data.drop 4) : Int) =
      decimal_value (name.data.drop 4) :=
    to_int32_of_range _ (by omega) (by omega)
  unfold parse_card_id
  rw [c_str_of_no_nul name h, hcard, strtol_of_digits _ h2 h3, if_neg h5]
  simp only [strncmp_eq, h1, h2, h3b, h6, INT32_MAX]
  simp
  omega

theorem parse_card_id_reject (name : String) (card_id : Int) (h : '\x00' ∉ name.data)
    (hn : ¬ (name.data.take 4 = ['c', 'a', 'r', 'd'] ∧ name.data.drop 4 ≠ [] ∧
      (∀ c ∈ name.data.drop 4, c.isDigit = true) ∧
      decimal_value (name.data.drop 4) ≤ 2147483647)) :
    parse_card_id name card_id = (0, card_id) := by
  have hcard : c_str "card" = ['c', 'a', 'r', 'd'] := by decide
  unfold parse_card_id
  rw [c_str_of_no_nul name h, hcard]
  by_cases h1 : name.data.take 4 = ['c', 'a', 'r', 'd']
  · by_cases h2 : name.data.drop 4 = []
    · simp [strncmp_eq, h1, h2]
    · by_cases h3 : ∀ c ∈ name.data.drop 4, c.isDigit = true
      · have h3b : all_digits (name.data.drop 4) = true := (all_digits_iff _).2 h3
        have h4 : ¬ decimal_value (name.data.drop 4) ≤ 2147483647 :=
          fun h4 => hn ⟨h1, h2, h3, h4⟩
        rw [strtol_of_digits _ h2 h3]
        by_cases h5 : (decimal_value (name.data.drop 4) : Int) > LONG_MAX
        · rw [if_pos h5]
          simp [strncmp_eq, h1, h2, h3b, ERANGE]
        · rw [if_neg h5]
          have h7 : (decimal_value (name.data.drop 4) : Int) > INT32_MAX := by
            unfold INT32_MAX
            omega
          simp [strncmp_eq, h1, h2, h3b, h7]
      · have h3b : all_digits (name.data.drop 4) = false := by
          rw [Bool.eq_false_iff, Ne, all_digits_iff]
          exact h3
        simp [strncmp_eq, h1, h2, h3b]
  · simp [strncmp_eq, h1]

theorem card_name_split (name : String) (ds : List Char) :
    name = "card" ++ String.mk ds ↔
      name.data.take 4 = ['c', 'a', 'r', 'd'] ∧ name.data.drop 4 = ds := by
  rw [String.ext_iff, String.data_append]
  have hc : "card".data = ['c', 'a', 'r', 'd'] := rfl
  rw [hc]
  constructor
  · intro h
    rw [h]
    simp
  · rintro ⟨h1, h2⟩
    rw [← h1, ← h2, List.take_append_drop]

theorem card_name_iff (name : String) :
    (∃ ds : List Char, name = "card" ++ String.mk ds ∧ ds ≠ [] ∧
        (∀ c ∈ ds, c.isDigit = true) ∧ decimal_value ds ≤ 2 ^ 31 - 1) ↔
      (name.data.take 4 = ['c', 'a', 'r', 'd'] ∧ name.data.drop 4 ≠ [] ∧
        (∀ c ∈ name.data.drop 4, c.isDigit = true) ∧
        decimal_value (name.data.drop 4) ≤ 2147483647) := by
  constructor
  · rintro ⟨ds, hn, h2, h3, h4⟩
    obtain ⟨h1, rfl⟩ := (card_name_split name ds).1 hn
    exact ⟨h1, h2, h3, by norm_num at h4; exact h4⟩
  · rintro ⟨h1, h2, h3, h4⟩
    exact ⟨name.data.drop 4, (card_name_split name _).2 ⟨h1, rfl⟩, h2, h3,
      by norm_num; exact h4⟩

/-! ## Lemmas on tables without a repeated bit position -/

theorem shift_lt_width {w n : Nat} (h : n < w) : (1 <<< n) % 2 ^ w = 2 ^ n := by
  rw [Nat.one_shiftLeft]
  exact Nat.mod_eq_of_lt (Nat.pow_lt_pow_right (by norm_num) h)

theorem filter_bit_eq_singleton (l : List bit_desc_t)
    (hnd : (l.map (fun b => b.bit)).Nodup) (b : bit_desc_t) (hb : b ∈ l) :
    l.filter (fun x => decide (x.bit = b.bit)) = [b] := by
  induction l with
  | nil => simp at hb
  | cons x xs ih =>
    rw [List.map_cons, List.nodup_cons] at hnd
    obtain ⟨hx, hxs⟩ := hnd
    rcases List.mem_cons.1 hb with rfl | hb2
    · have hnil : xs.filter (fun y => decide (y.bit = b.bit)) = [] := by
        rw [List.filter_eq_nil_iff]
        intro y hy hyb
        exact hx (List.mem_map.2 ⟨y, hy, of_decide_eq_true hyb⟩)
      simp [List.filter_cons, hnil]
    · have hne : ¬ x.bit = b.bit := by
        intro hxb
        exact hx (List.mem_map.2 ⟨b, hb2, hxb.symm⟩)
      simp [List.filter_cons, hne, ih hxs hb2]

theorem matched_of_one_recognised_bit (v : Nat) (bits : List bit_desc_t)
    (hnd : (bits.map (fun b => b.bit)).Nodup) (i : Nat) (hi : v.testBit i = true)
    (hex : ∃ b ∈ bits, b.bit = i)
    (huniq : ∀ j, v.testBit j = true → (∃ b ∈ bits, b.bit = j) → j = i) :
    ∃ b ∈ bits, b.bit = i ∧ bits.filter (fun b => v.testBit b.bit) = [b] := by
  obtain ⟨b, hb, rfl⟩ := hex
  refine ⟨b, hb, rfl, ?_⟩
  rw [← filter_bit_eq_singleton bits hnd b hb]
  apply List.filter_congr
  intro x hx
  cases hx2 : v.testBit x.bit
  · have hne : ¬ x.bit = b.bit := by
      intro hxb
      rw [hxb, hi] at hx2
      exact absurd hx2 (by decide)
    simp [hne]
  · have heq : x.bit = b.bit := huniq x.bit hx2 ⟨x, hx, rfl⟩
    simp [heq]

/-! ## Claims -/

/-- C1: for every 64-bit value and every table whose bit positions are below 64 (so that
every shift `1ULL << bit` is defined), `print_set_bits64` produces exactly one of three
outputs. It is the "unavailable" output if and only if the value is all-ones (whatever the
table, also one that defines bit 63); it is the "none" output if and only if the value is
not all-ones and no table entry has its bit set in the value (in particular for value 0
against a non-empty table); it is the output of a non-empty reason list if and only if the
value is not all-ones and some entry has its bit set, and that list is then the matched
entries. The three outputs are pairwise different. On such a table the operand of every
bit test is the power of two of the entry's bit position. -/
theorem print_set_bits64_three_results (label : String) (v : Nat) (bits : List bit_desc_t)
    (hv : v < 2 ^ 64) (hb : ∀ b ∈ bits, b.bit < 64) :
    (print_set_bits64 label v bits = result_output64 label v .unavailable ↔
        v = 0xFFFFFFFFFFFFFFFF) ∧
    (print_set_bits64 label v bits = result_output64 label v .none ↔
        v ≠ 0xFFFFFFFFFFFFFFFF ∧ ∀ b ∈ bits, v.testBit b.bit = false) ∧
    ((∃ rs, rs ≠ [] ∧ print_set_bits64 label v bits = result_output64 label v (.reasons rs)) ↔
        v ≠ 0xFFFFFFFFFFFFFFFF ∧ ∃ b ∈ bits, v.testBit b.bit = true) ∧
    (v ≠ 0xFFFFFFFFFFFFFFFF → (∃ b ∈ bits, v.testBit b.bit = true) →
        print_set_bits64 label v bits = result_output64 label v (.reasons (matched v bits))) ∧
    (∀ rs, result_output64 label v .none ≠ result_output64 label v .unavailable ∧
        result_output64 label v (.reasons rs) ≠ result_output64 label v .unavailable ∧
        result_output64 label v (.reasons rs) ≠ result_output64 label v .none) ∧
    (∀ (l : String) (d : Option String),
        print_set_bits64 label 0xFFFFFFFFFFFFFFFF (⟨63, l, d⟩ :: bits) =
          result_output64 label 0xFFFFFFFFFFFFFFFF .unavailable) ∧
    (bits ≠ [] → print_set_bits64 label 0 bits = result_output64 label 0 .none) ∧
    (∀ b ∈ bits, (1 <<< b.bit) % 2 ^ 64 = 2 ^ b.bit) := by
  have hmax : ∀ bs, print_set_bits64 label UINT64_MAX bs =
      result_output64 label UINT64_MAX .unavailable := by
    intro bs
    simp [print_set_bits64, result_output64]
  have hzero : print_set_bits64 label 0 bits = result_output64 label 0 .none := by
    rw [print_set_bits64_scan label (by norm_num) (by decide) bits]
    have : matched 0 bits = [] := by
      rw [matched_eq_nil_iff]; intro b _; simp
    simp [scan_result, this]
  refine ⟨?_, ?_, ?_, ?_, ?_, fun l d => hmax _, fun _ => hzero,
    fun b hbm => shift_lt_width (hb b hbm)⟩
  · constructor
    · intro h
      by_contra hne
      rw [print_set_bits64_scan label hv hne bits] at h
      unfold scan_result at h
      split at h
      · exact result_output64_none_ne_unavailable label v h
      · exact result_output64_reasons_ne_unavailable label v _ h
    · intro h
      subst h
      exact hmax bits
  · constructor
    · intro h
      have hne : v ≠ UINT64_MAX := by
        intro h2
        subst h2
        rw [hmax bits] at h
        exact result_output64_none_ne_unavailable label _ h.symm
      refine ⟨hne, ?_⟩
      rw [print_set_bits64_scan label hv hne bits] at h
      unfold scan_result at h
      split at h
      · rename_i hm
        exact (matched_eq_nil_iff v bits).1 hm
      · exact absurd h (result_output64_reasons_ne_none label v _)
    · rintro ⟨hne, hall⟩
      rw [print_set_bits64_scan label hv hne bits]
      simp [scan_result, (matched_eq_nil_iff v bits).2 hall]
  · constructor
    · rintro ⟨rs, _, h⟩
      have hne : v ≠ UINT64_MAX := by
        intro h2
        subst h2
        rw [hmax bits] at h
        exact result_output64_reasons_ne_unavailable label _ rs h.symm
      refine ⟨hne, ?_⟩
      rw [print_set_bits64_scan label hv hne bits] at h
      unfold scan_result at h
      split at h
      · exact absurd h.symm (result_output64_reasons_ne_none label v _)
      · rename_i hm
        exact (matched_ne_nil_iff v bits).1 hm
    · rintro ⟨hne, hex⟩
      have hm := (matched_ne_nil_iff v bits).2 hex
      refine ⟨matched v bits, hm, ?_⟩
      rw [print_set_bits64_scan label hv hne bits]
      simp [scan_result, hm]
  · intro hne hex
    have hm := (matched_ne_nil_iff v bits).2 hex
    rw [print_set_bits64_scan label hv hne bits]
    simp [scan_result, hm]
  · intro rs
    exact ⟨result_output64_none_ne_unavailable label v,
      result_output64_reasons_ne_unavailable label v rs,
      result_output64_reasons_ne_none label v rs⟩

/-- Witness of C1 at value 5 against the ASIC-independent table. -/
theorem print_set_bits64_three_results_witness :
    (5 < 2 ^ 64 ∧ ∀ b ∈ indep_throttler_bits, b.bit < 64) ∧
    (print_set_bits64 "indep_throttle_status" 5 indep_throttler_bits =
        result_output64 "indep_throttle_status" 5 .unavailable ↔ 5 = 0xFFFFFFFFFFFFFFFF) ∧
    print_set_bits64 "indep_throttle_status" 5 indep_throttler_bits =
      result_output64 "indep_throttle_status" 5 (.reasons (matched 5 indep_throttler_bits)) :=
  ⟨⟨by decide, by decide⟩,
    (print_set_bits64_three_results "indep_throttle_status" 5 indep_throttler_bits
      (by decide) (by decide)).1,
    (print_set_bits64_three_results "indep_throttle_status" 5 indep_throttler_bits
      (by decide) (by decide)).2.2.2.1 (by decide)
      ⟨⟨0, "PPT0", some "pkg power (avg/filtered)"⟩, by decide, by decide⟩⟩

/-- C2, counterexample: against a table that declares bit position 0 twice, the value 1 has
exactly one recognised bit (bit 0, its only set bit), yet `print_set_bits32` and
`print_set_bits64` list both entries of that position. So a value with exactly one
recognised bit does not yield a one-element list for every table. -/
theorem repeated_bit_lists_every_entry :
    ¬ (∀ (label : String) (v : Nat) (bits : List bit_desc_t), v < 2 ^ 32 →
        (∀ b ∈ bits, b.bit < 32) →
        ∀ i, v.testBit i = true → (∃ b ∈ bits, b.bit = i) →
          (∀ j, v.testBit j = true → (∃ b ∈ bits, b.bit = j) → j = i) →
          ∃ b, print_set_bits32 label v bits = result_output32 label v (.reasons [b])) ∧
    print_set_bits32 "throttle_status" 1 repeated_bit_table =
      ["  throttle_status: 0x00000001\n", "  throttle_status reasons:",
        " PPT0 (pkg power (avg/filtered)", ")", ", PPT0_AGAIN (same bit", ")", "\n"] ∧
    print_set_bits64 "indep_throttle_status" 1 repeated_bit_table =
      ["  indep_throttle_status: 0x0000000000000001\n", "  indep_throttle_status reasons:",
        " PPT0 (pkg power (avg/filtered)", ")", ", PPT0_AGAIN (same bit", ")", "\n"] ∧
    (¬ ∃ b, print_set_bits64 "indep_throttle_status" 1 repeated_bit_table =
      result_output64 "indep_throttle_status" 1 (.reasons [b])) := by
  have e32 : print_set_bits32 "throttle_status" 1 repeated_bit_table =
      ["  throttle_status: 0x00000001\n", "  throttle_status reasons:",
        " PPT0 (pkg power (avg/filtered)", ")", ", PPT0_AGAIN (same bit", ")", "\n"] := by
    decide
  have e64 : print_set_bits64 "indep_throttle_status" 1 repeated_bit_table =
      ["  indep_throttle_status: 0x0000000000000001\n", "  indep_throttle_status reasons:",
        " PPT0 (pkg power (avg/filtered)", ")", ", PPT0_AGAIN (same bit", ")", "\n"] := by
    decide
  refine ⟨?_, e32, e64, ?_⟩
  · intro hall
    obtain ⟨b, hb⟩ := hall "throttle_status" 1 repeated_bit_table (by norm_num) (by decide)
      0 (by decide) ⟨⟨0, "PPT0", some "pkg power (avg/filtered)"⟩, by decide, rfl⟩
      (fun j hj _ => Nat.testBit_one_eq_true_iff_self_eq_zero.1 hj)
    rw [e32] at hb
    have hlen := congrArg List.length hb
    cases hd : b.desc <;>
      simp [result_output32, reasons_text, reason_text, hd] at hlen
  · rintro ⟨b, hb⟩
    rw [e64] at hb
    have hlen := congrArg List.length hb
    cases hd : b.desc <;>
      simp [result_output64, reasons_text, reason_text, hd] at hlen

/-- C2, amended: for every value and every table whose bit positions are below the width
of the field (32 for `print_set_bits32`, 64 for `print_set_bits64`), the reasons written by
`print_set_bits32` (and by `print_set_bits64` for a value that is not all-ones) are the text
of the table filtered, in declaration order, to the entries whose bit is set in the value,
each entry giving its label and its description; the order is the table's order also where
the bit positions of the table are not increasing; and when the table has no repeated bit
position, a value with exactly one recognised bit gives a one-element list: the label and
description of the one entry of that bit. On such tables the operand of every bit test is
the power of two of the entry's bit position. -/
theorem reason_list_is_filtered_table (label : String) (v32 v64 : Nat)
    (bits32 bits64 : List bit_desc_t) (h32 : v32 < 2 ^ 32) (h64 : v64 < 2 ^ 64)
    (hne : v64 ≠ 0xFFFFFFFFFFFFFFFF) (hb32 : ∀ b ∈ bits32, b.bit < 32)
    (hb64 : ∀ b ∈ bits64, b.bit < 64) :
    print_set_bits32 label v32 bits32 =
      ["  " ++ label ++ ": 0x" ++ fmt_0x 8 v32 ++ "\n", "  " ++ label ++ " reasons:"] ++
        reasons_text true (bits32.filter (fun b => v32.testBit b.bit)) ++
        [(if bits32.filter (fun b => v32.testBit b.bit) = [] then " none" else "") ++
          "\n"] ∧
    print_set_bits64 label v64 bits64 =
      ["  " ++ label ++ ": 0x" ++ fmt_0x 16 v64 ++ "\n", "  " ++ label ++ " reasons:"] ++
        reasons_text true (bits64.filter (fun b => v64.testBit b.bit)) ++
        [(if bits64.filter (fun b => v64.testBit b.bit) = [] then " none" else "") ++
          "\n"] ∧
    ((bits32.map (fun b => b.bit)).Nodup →
      ∀ i, v32.testBit i = true → (∃ b ∈ bits32, b.bit = i) →
        (∀ j, v32.testBit j = true → (∃ b ∈ bits32, b.bit = j) → j = i) →
        ∃ b ∈ bits32, b.bit = i ∧
          bits32.filter (fun b => v32.testBit b.bit) = [b] ∧
          print_set_bits32 label v32 bits32 =
            ["  " ++ label ++ ": 0x" ++ fmt_0x 8 v32 ++ "\n", "  " ++ label ++ " reasons:"] ++
              (match b.desc with
                | some d => [" " ++ b.label ++ " (" ++ d, ")"]
                | none => [" " ++ b.label]) ++ ["\n"]) ∧
    ((bits64.map (fun b => b.bit)).Nodup →
      ∀ i, v64.testBit i = true → (∃ b ∈ bits64, b.bit = i) →
        (∀ j, v64.testBit j = true → (∃ b ∈ bits64, b.bit = j) → j = i) →
        ∃ b ∈ bits64, b.bit = i ∧
          bits64.filter (fun b => v64.testBit b.bit) = [b] ∧
          print_set_bits64 label v64 bits64 =
            ["  " ++ label ++ ": 0x" ++ fmt_0x 16 v64 ++ "\n", "  " ++ label ++ " reasons:"] ++
              (match b.desc with
                | some d => [" " ++ b.label ++ " (" ++ d, ")"]
                | none => [" " ++ b.label]) ++ ["\n"]) ∧
    print_set_bits32 label 0x24 [⟨5, "HI", some "five"⟩, ⟨2, "LO", some "two"⟩] =
      ["  " ++ label ++ ": 0x" ++ fmt_0x 8 0x24 ++ "\n", "  " ++ label ++ " reasons:",
        " HI (five", ")", ", LO (two", ")", "\n"] ∧
    print_set_bits64 label 0x24 [⟨5, "HI", some "five"⟩, ⟨2, "LO", some "two"⟩] =
      ["  " ++ label ++ ": 0x" ++ fmt_0x 16 0x24 ++ "\n", "  " ++ label ++ " reasons:",
        " HI (five", ")", ", LO (two", ")", "\n"] ∧
    (∀ b ∈ bits32, (1 <<< b.bit) % 2 ^ 32 = 2 ^ b.bit) ∧
    (∀ b ∈ bits64, (1 <<< b.bit) % 2 ^ 64 = 2 ^ b.bit) := by
  have e32 : ∀ (v : Nat), v < 2 ^ 32 → ∀ bs : List bit_desc_t, print_set_bits32 label v bs =
      ["  " ++ label ++ ": 0x" ++ fmt_0x 8 v ++ "\n", "  " ++ label ++ " reasons:"] ++
        reasons_text true (bs.filter (fun b => v.testBit b.bit)) ++
        [(if bs.filter (fun b => v.testBit b.bit) = [] then " none" else "") ++ "\n"] := by
    intro v hv bs
    rw [print_set_bits32_scan label hv bs]
    unfold scan_result matched bit_is_set
    split <;> rename_i hm
    · simp [hm, result_output32, reasons_text]
    · simp [hm, result_output32]
  have e64 : ∀ (v : Nat), v < 2 ^ 64 → v ≠ UINT64_MAX → ∀ bs : List bit_desc_t,
      print_set_bits64 label v bs =
      ["  " ++ label ++ ": 0x" ++ fmt_0x 16 v ++ "\n", "  " ++ label ++ " reasons:"] ++
        reasons_text true (bs.filter (fun b => v.testBit b.bit)) ++
        [(if bs.filter (fun b => v.testBit b.bit) = [] then " none" else "") ++ "\n"] := by
    intro v hv hn bs
    rw [print_set_bits64_scan label hv hn bs]
    unfold scan_result matched bit_is_set
    split <;> rename_i hm
    · simp [hm, result_output64, reasons_text]
    · simp [hm, result_output64]
  refine ⟨e32 v32 h32 bits32, e64 v64 h64 hne bits64, ?_, ?_, ?_, ?_,
    fun b hbm => shift_lt_width (hb32 b hbm), fun b hbm => shift_lt_width (hb64 b hbm)⟩
  · intro hnd i hi hex huniq
    obtain ⟨b, hbm, hbi, hf⟩ := matched_of_one_recognised_bit v32 bits32 hnd i hi hex huniq
    refine ⟨b, hbm, hbi, hf, ?_⟩
    rw [e32 v32 h32 bits32, hf]
    cases hd : b.desc <;> simp [reasons_text, reason_text, hd]
  · intro hnd i hi hex huniq
    obtain ⟨b, hbm, hbi, hf⟩ := matched_of_one_recognised_bit v64 bits64 hnd i hi hex huniq
    refine ⟨b, hbm, hbi, hf, ?_⟩
    rw [e64 v64 h64 hne bits64, hf]
    cases hd : b.desc <;> simp [reasons_text, reason_text, hd]
  · rw [e32 0x24 (by norm_num)]
    have hf : List.filter (fun b : bit_desc_t => Nat.testBit 0x24 b.bit)
        [⟨5, "HI", some "five"⟩, ⟨2, "LO", some "two"⟩] =
        [⟨5, "HI", some "five"⟩, ⟨2, "LO", some "two"⟩] := by decide
    rw [hf]
    simp [reasons_text, reason_text]
  · rw [e64 0x24 (by norm_num) (by decide)]
    have hf : List.filter (fun b : bit_desc_t => Nat.testBit 0x24 b.bit)
        [⟨5, "HI", some "five"⟩, ⟨2, "LO", some "two"⟩] =
        [⟨5, "HI", some "five"⟩, ⟨2, "LO", some "two"⟩] := by decide
    rw [hf]
    simp [reasons_text, reason_text]

/-- Witness of the amended C2: value 5 against the Aldebaran table, value 0x10001 against
the ASIC-independent table. -/
theorem reason_list_is_filtered_table_witness :
    (5 < 2 ^ 32 ∧ 0x10001 < 2 ^ 64 ∧ 0x10001 ≠ 0xFFFFFFFFFFFFFFFF ∧
      (∀ b ∈ ald_throttle_bits, b.bit < 32) ∧ (∀ b ∈ indep_throttler_bits, b.bit < 64)) ∧
    print_set_bits32 "throttle_status" 5 ald_throttle_bits =
      ["  " ++ "throttle_status" ++ ": 0x" ++ fmt_0x 8 5 ++ "\n",
        "  " ++ "throttle_status" ++ " reasons:"] ++
        reasons_text true (ald_throttle_bits.filter (fun b => Nat.testBit 5 b.bit)) ++
        [(if ald_throttle_bits.filter (fun b => Nat.testBit 5 b.bit) = [] then " none"
          else "") ++ "\n"] ∧
    print_set_bits64 "indep_throttle_status" 0x10001 indep_throttler_bits =
      ["  " ++ "indep_throttle_status" ++ ": 0x" ++ fmt_0x 16 0x10001 ++ "\n",
        "  " ++ "indep_throttle_status" ++ " reasons:"] ++
        reasons_text true (indep_throttler_bits.filter (fun b => Nat.testBit 0x10001 b.bit)) ++
        [(if indep_throttler_bits.filter (fun b => Nat.testBit 0x10001 b.bit) = []
          then " none" else "") ++ "\n"] :=
  ⟨by decide,
    (reason_list_is_filtered_table "throttle_status" 5 0x10001 ald_throttle_bits
      indep_throttler_bits (by decide) (by decide) (by decide) (by decide) (by decide)).1,
    (reason_list_is_filtered_table "indep_throttle_status" 5 0x10001 ald_throttle_bits
      indep_throttler_bits (by decide) (by decide) (by decide) (by decide) (by decide)).2.1⟩

/-- C3: for every 16-bit value and every unit suffix, `print_u16_or_na` writes the `N/A`
line if and only if the value is 0xFFFF, and otherwise writes the decimal rendering of the
value immediately followed by the suffix (nothing for a null suffix); in both cases it
writes exactly one line. -/
theorem print_u16_or_na_spec (label : String) (v : Nat) (suffix : Option String)
    (_hv : v < 2 ^ 16) :
    (print_u16_or_na label v suffix = ["  " ++ label ++ ": N/A\n"] ↔ v = 0xFFFF) ∧
    (v ≠ 0xFFFF → print_u16_or_na label v suffix =
        ["  " ++ label ++ ": " ++ toString v ++ suffix.getD "" ++ "\n"]) ∧
    (print_u16_or_na label v none = print_u16_or_na label v (some "")) ∧
    (print_u16_or_na label v suffix).length = 1 := by
  have hval : v ≠ 0xFFFF → print_u16_or_na label v suffix =
      ["  " ++ label ++ ": " ++ toString v ++ suffix.getD "" ++ "\n"] := by
    intro hne
    unfold print_u16_or_na
    rw [if_neg (show ¬ v = UINT16_MAX from hne)]
    cases suffix <;> rfl
  refine ⟨⟨?_, ?_⟩, hval, ?_, ?_⟩
  · intro h
    by_contra hne
    rw [hval hne] at h
    exact value_line_ne_na_line label (suffix.getD "") v (List.singleton_inj.1 h)
  · intro h
    simp [print_u16_or_na, h, UINT16_MAX]
  · unfold print_u16_or_na
    split <;> simp
  · unfold print_u16_or_na
    split <;> simp

/-- Witness of C3 at value 220 with suffix " W". -/
theorem print_u16_or_na_spec_witness :
    220 < 2 ^ 16 ∧ print_u16_or_na "Average Socket Power" 220 (some " W") =
      ["  Average Socket Power: 220 W\n"] :=
  ⟨by decide, ((print_u16_or_na_spec "Average Socket Power" 220 (some " W")
    (by decide)).2.1 (by decide)).trans (by decide)⟩

/-- C4: for every `gpu_metrics` file content of length L, `main` decodes and reports the
record if and only if L is at least 120, the value of `sizeof(gpu_metrics_v13_t)`. When
L < 120 nothing is written to standard output, `found` is unchanged, and the error message
carries expected 120 and read L. When L ≥ 120 the report is that of the record decoded
from the first 120 bytes, so two files with the same first 120 bytes give the same
result. -/
theorem main_read_metrics_length_check (list_all : Bool) (requested_card card_id : Int)
    (file : List Nat) (st : main_state) :
    sizeof_gpu_metrics_v13_t = 120 ∧
    (file.length < 120 →
      main_read_metrics list_all requested_card card_id file st =
        { st with err := st.err ++
            ["Error reading GPU metrics for card " ++ fmt_d card_id ++
              ": expected " ++ fmt_u 120 ++ " bytes, read " ++ fmt_u file.length ++
              " bytes\n"] }) ∧
    (120 ≤ file.length →
      (main_read_metrics list_all requested_card card_id file st).out =
          st.out ++ print_gpu_metrics card_id (decode (file.take 120)) ∧
      (main_read_metrics list_all requested_card card_id file st).found = st.found + 1 ∧
      (main_read_metrics list_all requested_card card_id file st).err = st.err) ∧
    ((main_read_metrics list_all requested_card card_id file st).out ≠ st.out ↔
      120 ≤ file.length) ∧
    ((main_read_metrics list_all requested_card card_id file st).found = st.found + 1 ↔
      120 ≤ file.length) ∧
    ((main_read_metrics list_all requested_card card_id file st).found = st.found ↔
      file.length < 120) ∧
    (∀ file2 : List Nat, 120 ≤ file.length → 120 ≤ file2.length →
      file2.take 120 = file.take 120 →
      main_read_metrics list_all requested_card card_id file2 st =
        main_read_metrics list_all requested_card card_id file st) := by
  have hsz := sizeof_gpu_metrics_v13_t_eq
  have hshort : file.length < 120 →
      main_read_metrics list_all requested_card card_id file st =
        { st with err := st.err ++
            ["Error reading GPU metrics for card " ++ fmt_d card_id ++
              ": expected " ++ fmt_u 120 ++ " bytes, read " ++ fmt_u file.length ++
              " bytes\n"] } := by
    intro hl
    unfold main_read_metrics
    rw [hsz]
    simp only []
    rw [if_pos (by omega), Nat.min_eq_left (by omega)]
  have hlong : ∀ f : List Nat, 120 ≤ f.length →
      main_read_metrics list_all requested_card card_id f st =
        if (!list_all && card_id == requested_card) = true then
          { st with
            out := st.out ++ print_gpu_metrics card_id (decode (f.take 120))
            found := st.found + 1, found_requested := true, stopped := true }
        else
          { st with
            out := st.out ++ print_gpu_metrics card_id (decode (f.take 120))
            found := st.found + 1 } := by
    intro f hl
    unfold main_read_metrics
    rw [hsz]
    simp only []
    rw [if_neg (by omega)]
  have hne : ∀ m : gpu_metrics_v13_t, print_gpu_metrics card_id m ≠ [] := by
    intro m
    simp [print_gpu_metrics]
  have hout : 120 ≤ file.length →
      (main_read_metrics list_all requested_card card_id file st).out =
          st.out ++ print_gpu_metrics card_id (decode (file.take 120)) ∧
      (main_read_metrics list_all requested_card card_id file st).found = st.found + 1 ∧
      (main_read_metrics list_all requested_card card_id file st).err = st.err := by
    intro hl
    rw [hlong file hl]
    split <;> simp
  refine ⟨hsz, hshort, hout, ?_, ?_, ?_, ?_⟩
  · constructor
    · intro h
      by_contra hl
      rw [hshort (by omega)] at h
      exact h rfl
    · intro hl
      rw [(hout hl).1]
      simp [hne]
  · constructor
    · intro h
      by_contra hl
      rw [hshort (by omega)] at h
      simp at h
    · intro hl
      exact (hout hl).2.1
  · constructor
    · intro h
      by_contra hl
      rw [(hout (by omega)).2.1] at h
      omega
    · intro hl
      rw [hshort hl]
  · intro file2 hl hl2 htake
    rw [hlong file hl, hlong file2 hl2, htake]

/-- Witness of C4: a file of 119 bytes is rejected with the error message, a file of 121
bytes is reported. -/
theorem main_read_metrics_length_check_witness :
    (main_read_metrics true (-1) 0 (List.replicate 119 0) ⟨[], [], 0, false, false⟩ =
      ⟨[], ["Error reading GPU metrics for card 0: expected 120 bytes, read 119 bytes\n"],
        0, false, false⟩) ∧
    (main_read_metrics true (-1) 0 (List.replicate 121 0) ⟨[], [], 0, false, false⟩).found
      = 1 :=
  ⟨((main_read_metrics_length_check true (-1) 0 (List.replicate 119 0)
      ⟨[], [], 0, false, false⟩).2.1 (by decide)).trans (by decide),
    ((main_read_metrics_length_check true (-1) 0 (List.replicate 121 0)
      ⟨[], [], 0, false, false⟩).2.2.1 (by decide)).2.1⟩

/-- C5: for every assignment of in-range values to the members of `gpu_metrics_v13_t`,
concatenating each member's little-endian bytes in declaration order gives a buffer of
exactly 120 bytes, which is the sum of the declared member widths and also the size of the
struct under natural alignment (no member is preceded by padding, none follows the last
member); decoding that buffer at the members' offsets gives back every member value. -/
theorem encode_decode_roundtrip (r : gpu_metrics_v13_t) (h : in_range r) :
    (encode r).length = 120 ∧
    (gpu_metrics_v13_members.map (fun m => m.width * m.count)).sum = 120 ∧
    sizeof_gpu_metrics_v13_t = 120 ∧
    member_offsets 0 gpu_metrics_v13_members = packed_offsets 0 gpu_metrics_v13_members ∧
    members_end 0 gpu_metrics_v13_members = 120 ∧
    decode (encode r) = r := by
  refine ⟨(decode_encode r h).1, by decide, sizeof_gpu_metrics_v13_t_eq, ?_, ?_,
    (decode_encode r h).2⟩
  · set_option maxRecDepth 100000 in decide
  · set_option maxRecDepth 100000 in decide

/-- Witness of C5 at the all-zero record and at the all-maximum record. -/
theorem encode_decode_roundtrip_witness :
    (in_range all_zero_record ∧ in_range all_max_record) ∧
    decode (encode all_zero_record) = all_zero_record ∧
    decode (encode all_max_record) = all_max_record ∧
    (encode all_max_record).length = 120 :=
  ⟨⟨by decide, by decide⟩,
    (encode_decode_roundtrip all_zero_record (by decide)).2.2.2.2.2,
    (encode_decode_roundtrip all_max_record (by decide)).2.2.2.2.2,
    (encode_decode_roundtrip all_max_record (by decide)).1⟩

/-- C6: for every record with `temperature_edge = 0xFFFF`, `average_socket_power = 220`,
`throttle_status = 0b101` and `indep_throttle_status = 0xFFFFFFFFFFFFFFFF`, whatever the
other members, `print_gpu_metrics` writes the edge temperature as `N/A`, the socket power
as `220 W`, the ASIC-specific reasons as the Aldebaran entries of bit 0 and bit 2 in table
order (PPT0, then TDC_GFX), and the normalized throttle status as unavailable. -/
theorem end_to_end_scenario (card_id : Int) (m : gpu_metrics_v13_t)
    (h1 : m.temperature_edge = 0xFFFF) (h2 : m.average_socket_power = 220)
    (h3 : m.throttle_status = 0b101)
    (h4 : m.indep_throttle_status = 0xFFFFFFFFFFFFFFFF) :
    (print_gpu_metrics card_id m)[4]? = some "  Temperature (Edge): N/A\n" ∧
    (print_gpu_metrics card_id m)[13]? = some "  Average Socket Power: 220 W\n" ∧
    (print_gpu_metrics card_id m).drop 44 =
      result_output32 "throttle_status" 0b101
          (.reasons [⟨0, "PPT0", some "pkg power (avg/filtered)"⟩,
            ⟨2, "TDC_GFX", some "current limit (gfx)"⟩]) ++
        result_output64 "indep_throttle_status" 0xFFFFFFFFFFFFFFFF .unavailable ∧
    (print_gpu_metrics card_id m).drop 44 =
      ["  throttle_status: 0x00000005\n", "  throttle_status reasons:",
        " PPT0 (pkg power (avg/filtered)", ")", ", TDC_GFX (current limit (gfx)", ")", "\n",
        "  indep_throttle_status: 0xffffffffffffffff (unavailable)\n"] ∧
    ald_throttle_bits.filter (fun b => b.bit = 0 ∨ b.bit = 2) =
      [⟨0, "PPT0", some "pkg power (avg/filtered)"⟩,
        ⟨2, "TDC_GFX", some "current limit (gfx)"⟩] := by
  obtain ⟨l4, l13, _, ltail⟩ := print_gpu_metrics_lines card_id m
  rw [h1] at l4
  rw [h2] at l13
  rw [h3, h4] at ltail
  have e32 : print_set_bits32 "throttle_status" 0b101 ald_throttle_bits =
      ["  throttle_status: 0x00000005\n", "  throttle_status reasons:",
        " PPT0 (pkg power (avg/filtered)", ")", ", TDC_GFX (current limit (gfx)", ")",
        "\n"] := by decide
  have e64 : print_set_bits64 "indep_throttle_status" 0xFFFFFFFFFFFFFFFF
      indep_throttler_bits =
      ["  indep_throttle_status: 0xffffffffffffffff (unavailable)\n"] := by decide
  refine ⟨?_, ?_, ?_, ?_, by decide⟩
  · rw [l4]; decide
  · rw [l13]; decide
  · rw [ltail, e32, e64]; decide
  · rw [ltail, e32, e64]; rfl

/-- Witness of C6 at the all-maximum record with the scenario's socket power and
ASIC-specific status. -/
theorem end_to_end_scenario_witness :
    (print_gpu_metrics 0
      { all_max_record with average_socket_power := 220, throttle_status := 0b101 }).drop 44 =
      ["  throttle_status: 0x00000005\n", "  throttle_status reasons:",
        " PPT0 (pkg power (avg/filtered)", ")", ", TDC_GFX (current limit (gfx)", ")", "\n",
        "  indep_throttle_status: 0xffffffffffffffff (unavailable)\n"] :=
  (end_to_end_scenario 0
    { all_max_record with average_socket_power := 220, throttle_status := 0b101 }
    rfl rfl rfl rfl).2.2.2.1

/-- C7, counterexample: the all-ones value and the value with only bit 63 cleared differ
only in bit 63, which has no entry in the ASIC-independent table, yet the first is shown as
"unavailable" and the second as the list of all 34 entries. So values that differ only in
unrecognised bit positions need not decode to the same result. -/
theorem unrecognised_bit_changes_result :
    ¬ (∀ u v : Nat, u < 2 ^ 64 → v < 2 ^ 64 →
        (∀ i, u.testBit i ≠ v.testBit i → ∀ b ∈ indep_throttler_bits, b.bit ≠ i) →
        ∀ res, print_set_bits64 "indep_throttle_status" u indep_throttler_bits =
              result_output64 "indep_throttle_status" u res ↔
            print_set_bits64 "indep_throttle_status" v indep_throttler_bits =
              result_output64 "indep_throttle_status" v res) ∧
    print_set_bits64 "indep_throttle_status" 0xFFFFFFFFFFFFFFFF indep_throttler_bits =
      result_output64 "indep_throttle_status" 0xFFFFFFFFFFFFFFFF .unavailable ∧
    print_set_bits64 "indep_throttle_status" 0x7FFFFFFFFFFFFFFF indep_throttler_bits =
      result_output64 "indep_throttle_status" 0x7FFFFFFFFFFFFFFF
        (.reasons indep_throttler_bits) := by
  have hu : print_set_bits64 "indep_throttle_status" 0xFFFFFFFFFFFFFFFF
      indep_throttler_bits =
      result_output64 "indep_throttle_status" 0xFFFFFFFFFFFFFFFF .unavailable := by
    simp [print_set_bits64, result_output64, UINT64_MAX]
  have hv : print_set_bits64 "indep_throttle_status" 0x7FFFFFFFFFFFFFFF
      indep_throttler_bits =
      result_output64 "indep_throttle_status" 0x7FFFFFFFFFFFFFFF
        (.reasons indep_throttler_bits) := by
    rw [print_set_bits64_scan _ (by norm_num) (by decide)]
    have hs : scan_result 0x7FFFFFFFFFFFFFFF indep_throttler_bits =
        .reasons indep_throttler_bits := by decide
    rw [hs]
  refine ⟨?_, hu, hv⟩
  intro h
  have hagree : ∀ b ∈ indep_throttler_bits,
      Nat.testBit 0xFFFFFFFFFFFFFFFF b.bit = Nat.testBit 0x7FFFFFFFFFFFFFFF b.bit := by
    decide
  have h2 := (h 0xFFFFFFFFFFFFFFFF 0x7FFFFFFFFFFFFFFF (by norm_num) (by norm_num)
    (by
      intro i hi b hb hbi
      subst hbi
      exact hi (hagree b hb)) .unavailable).1 hu
  rw [hv] at h2
  exact result_output64_reasons_ne_unavailable _ _ _ h2

/-- C7, amended: for every pair of 64-bit values, neither of them all-ones, that differ
only in bit positions having no entry in the ASIC-independent table, `print_set_bits64`
shows the same result for both: there is one result, "none" or a reason list, that both
outputs show, an output shows a result for one value exactly when it does for the other,
and the outputs are equal from the second line on (the first line echoes the raw value). -/
theorem unrecognised_bits_ignored (label : String) (u v : Nat) (hu : u < 2 ^ 64)
    (hv : v < 2 ^ 64) (hune : u ≠ 0xFFFFFFFFFFFFFFFF) (hvne : v ≠ 0xFFFFFFFFFFFFFFFF)
    (hdiff : ∀ i, u.testBit i ≠ v.testBit i → ∀ b ∈ indep_throttler_bits, b.bit ≠ i) :
    (∃ res, res ≠ .unavailable ∧
      print_set_bits64 label u indep_throttler_bits = result_output64 label u res ∧
      print_set_bits64 label v indep_throttler_bits = result_output64 label v res) ∧
    (∀ res, print_set_bits64 label u indep_throttler_bits = result_output64 label u res ↔
      print_set_bits64 label v indep_throttler_bits = result_output64 label v res) ∧
    (print_set_bits64 label u indep_throttler_bits).tail =
      (print_set_bits64 label v indep_throttler_bits).tail ∧
    indep_throttler_bits.filter (fun b => u.testBit b.bit) =
      indep_throttler_bits.filter (fun b => v.testBit b.bit) := by
  have hagree : ∀ b ∈ indep_throttler_bits, u.testBit b.bit = v.testBit b.bit := by
    intro b hb
    by_contra hne
    exact hdiff b.bit hne b hb rfl
  have hfilter : indep_throttler_bits.filter (fun b => u.testBit b.bit) =
      indep_throttler_bits.filter (fun b => v.testBit b.bit) :=
    List.filter_congr hagree
  have hscan : scan_result u indep_throttler_bits = scan_result v indep_throttler_bits := by
    unfold scan_result matched bit_is_set
    rw [hfilter]
  have hsu : scan_result u indep_throttler_bits ≠ .unavailable := by
    unfold scan_result
    split <;> simp
  have eu := print_set_bits64_scan label hu hune indep_throttler_bits
  have ev := print_set_bits64_scan label hv hvne indep_throttler_bits
  rw [← hscan] at ev
  refine ⟨⟨_, hsu, eu, ev⟩, ?_, ?_, hfilter⟩
  · intro res
    rw [eu, ev]
    cases hd : scan_result u indep_throttler_bits <;> cases res <;>
      simp [result_output64]
  · rw [eu, ev]
    cases hd : scan_result u indep_throttler_bits <;> simp [result_output64]

/-- Witness of the amended C7: values 0x5 and 0x8000000000000005 differ only in bit 63. -/
theorem unrecognised_bits_ignored_witness :
    (0x5 < 2 ^ 64 ∧ 0x8000000000000005 < 2 ^ 64 ∧ 0x5 ≠ 0xFFFFFFFFFFFFFFFF ∧
      0x8000000000000005 ≠ 0xFFFFFFFFFFFFFFFF) ∧
    (print_set_bits64 "indep_throttle_status" 0x5 indep_throttler_bits).tail =
      (print_set_bits64 "indep_throttle_status" 0x8000000000000005
        indep_throttler_bits).tail :=
  ⟨by decide, (unrecognised_bits_ignored "indep_throttle_status" 0x5 0x8000000000000005
    (by decide) (by decide) (by decide) (by decide)
    (by
      intro i hi b hb hbi
      subst hbi
      have hagree : ∀ b ∈ indep_throttler_bits,
          Nat.testBit 0x5 b.bit = Nat.testBit 0x8000000000000005 b.bit := by decide
      exact hi (hagree b hb))).2.2.1⟩

/-- C8: the 32-bit field has no sentinel. For every 32-bit value, 0xFFFFFFFF included,
`print_set_bits32` never writes the "unavailable" output and always writes the result of
scanning the table; for 0xFFFFFFFF against the Aldebaran table it lists all 11 entries in
table order. -/
theorem print_set_bits32_no_sentinel (label : String) (v : Nat) (bits : List bit_desc_t)
    (hv : v < 2 ^ 32) :
    print_set_bits32 label v bits ≠ result_output32 label v .unavailable ∧
    print_set_bits32 label v bits = result_output32 label v (scan_result v bits) ∧
    scan_result v bits ≠ .unavailable ∧
    scan_result 0xFFFFFFFF ald_throttle_bits = .reasons ald_throttle_bits ∧
    ald_throttle_bits.length = 11 ∧
    print_set_bits32 "throttle_status" 0xFFFFFFFF ald_throttle_bits =
      ["  throttle_status: 0xffffffff\n", "  throttle_status reasons:",
        " PPT0 (pkg power (avg/filtered)", ")", ", PPT1 (pkg power (raw/spike)", ")",
        ", TDC_GFX (current limit (gfx)", ")", ", TDC_SOC (current limit (soc)", ")",
        ", TDC_HBM (current limit (hbm)", ")", ", TEMP_GPU (temperature (gpu)", ")",
        ", TEMP_MEM (temperature (mem)", ")", ", TEMP_VR_GFX (temperature (vr gfx)", ")",
        ", TEMP_VR_SOC (temperature (vr soc)", ")", ", TEMP_VR_MEM (temperature (vr mem)", ")",
        ", APCC (reliability limit", ")", "\n"] := by
  have hs : scan_result v bits ≠ .unavailable := by
    unfold scan_result
    split <;> simp
  refine ⟨?_, print_set_bits32_scan label hv bits, hs, by decide, rfl, by decide⟩
  · rw [print_set_bits32_scan label hv bits]
    intro h
    have h2 := congrArg List.length h
    cases hr : scan_result v bits <;> rw [hr] at h2 <;> simp [result_output32] at h2
    exact hs hr

/-- Witness of C8 at value 0xFFFFFFFF against the Aldebaran table. -/
theorem print_set_bits32_no_sentinel_witness :
    0xFFFFFFFF < 2 ^ 32 ∧
    print_set_bits32 "throttle_status" 0xFFFFFFFF ald_throttle_bits ≠
      result_output32 "throttle_status" 0xFFFFFFFF .unavailable :=
  ⟨by decide, (print_set_bits32_no_sentinel "throttle_status" 0xFFFFFFFF ald_throttle_bits
    (by decide)).1⟩

/-- C9: for every 16-bit raw `pcie_link_speed`, 0xFFFF included, the rate written by
`print_gpu_metrics` is the raw value divided by ten with one fractional digit: integer part
`r / 10`, a point, the digit `r % 10`; the line is never the `N/A` line; raw 30 is written
as 3.0 and raw 0xFFFF as 6553.5. -/
theorem pcie_link_speed_display (card_id : Int) (m : gpu_metrics_v13_t)
    (h : m.pcie_link_speed < 2 ^ 16) :
    fmt_1f (double_div10 m.pcie_link_speed) =
      toString (m.pcie_link_speed / 10) ++ "." ++ toString (m.pcie_link_speed % 10) ∧
    (print_gpu_metrics card_id m)[32]? =
      some ("  PCIe Link Speed: " ++ toString (m.pcie_link_speed / 10) ++ "." ++
        toString (m.pcie_link_speed % 10) ++ " GT/s (raw " ++
        toString m.pcie_link_speed ++ ")\n") ∧
    (print_gpu_metrics card_id m)[32]? ≠ some "  PCIe Link Speed: N/A\n" ∧
    fmt_1f (double_div10 30) = "3.0" ∧
    fmt_1f (double_div10 0xFFFF) = "6553.5" := by
  have hf := fmt_1f_double_div10 m.pcie_link_speed h
  have hl := (print_gpu_metrics_lines card_id m).2.2.1
  rw [hf] at hl
  refine ⟨hf, hl, ?_, by decide, by decide⟩
  rw [hl]
  intro hc
  have hc2 := Option.some.inj hc
  obtain ⟨c, cs, hcs, hN⟩ := fmt_u_head_ne_N (m.pcie_link_speed / 10)
  rw [String.ext_iff] at hc2
  simp only [String.data_append, List.append_assoc] at hc2
  rw [hcs] at hc2
  simp at hc2
  exact hN hc2.1

/-- Witness of C9 at the all-maximum record, whose raw link speed is 0xFFFF. -/
theorem pcie_link_speed_display_witness :
    all_max_record.pcie_link_speed < 2 ^ 16 ∧
    (print_gpu_metrics 0 all_max_record)[32]? =
      some "  PCIe Link Speed: 6553.5 GT/s (raw 65535)\n" :=
  ⟨by decide, ((pcie_link_speed_display 0 all_max_record (by decide)).2.1).trans
    (by decide)⟩

/-- C10, counterexample: the two tables are not disjoint. The entry `(0, "PPT0",
"pkg power (avg/filtered)")` belongs to both, so a bit position occurring in both tables
can carry the same label and description. -/
theorem tables_not_disjoint :
    ¬ (∀ a ∈ ald_throttle_bits, ∀ b ∈ indep_throttler_bits, a.bit = b.bit →
        ¬ (a.label = b.label ∧ a.desc = b.desc)) ∧
    (⟨0, "PPT0", some "pkg power (avg/filtered)"⟩ : bit_desc_t) ∈ ald_throttle_bits ∧
    (⟨0, "PPT0", some "pkg power (avg/filtered)"⟩ : bit_desc_t) ∈ indep_throttler_bits := by
  refine ⟨?_, by decide, by decide⟩
  intro h
  exact h ⟨0, "PPT0", some "pkg power (avg/filtered)"⟩ (by decide)
    ⟨0, "PPT0", some "pkg power (avg/filtered)"⟩ (by decide) rfl ⟨rfl, rfl⟩

/-- C10, amended: the two tables share exactly the entries of bit 0 (PPT0) and bit 1
(PPT1); for every other bit position that occurs in both tables the two entries differ in
label and in description. -/
theorem tables_disjoint_except_ppt :
    (∀ a ∈ ald_throttle_bits, ∀ b ∈ indep_throttler_bits, a.bit = b.bit →
        a.bit ≠ 0 → a.bit ≠ 1 → a.label ≠ b.label ∧ a.desc ≠ b.desc) ∧
    ald_throttle_bits.filter (fun a => decide (a ∈ indep_throttler_bits)) =
      [⟨0, "PPT0", some "pkg power (avg/filtered)"⟩,
        ⟨1, "PPT1", some "pkg power (raw/spike)"⟩] ∧
    (ald_throttle_bits.map (fun a => a.bit)).filter
        (fun i => decide (i ∈ indep_throttler_bits.map (fun b => b.bit))) =
      [0, 1, 2, 3, 4, 6, 7, 19] := by
  refine ⟨by decide, by decide, by decide⟩

/-- Witness of the amended C10 at bit 2: `TDC_GFX` in the Aldebaran table, `PPT2` in the
ASIC-independent table. -/
theorem tables_disjoint_except_ppt_witness :
    (⟨2, "TDC_GFX", some "current limit (gfx)"⟩ : bit_desc_t).label ≠
        (⟨2, "PPT2", some "power limit"⟩ : bit_desc_t).label ∧
    (⟨2, "TDC_GFX", some "current limit (gfx)"⟩ : bit_desc_t).desc ≠
        (⟨2, "PPT2", some "power limit"⟩ : bit_desc_t).desc :=
  tables_disjoint_except_ppt.1 ⟨2, "TDC_GFX", some "current limit (gfx)"⟩ (by decide)
    ⟨2, "PPT2", some "power limit"⟩ (by decide) rfl (by decide) (by decide)

/-- C11: every bit position of the Aldebaran table lies in 0..19 and every bit position of
the ASIC-independent table lies in 0..57; in each table the bit positions strictly increase
in declaration order. Hence every shift `1U << bit` of `print_set_bits32` on the Aldebaran
table is by less than 32 and every shift `1ULL << bit` of `print_set_bits64` on the
ASIC-independent table is by less than 64 (the shifted value is the power of two, nothing
is cut off), no bit position occurs twice in a table, and sorting either table by ascending
bit position leaves it as declared. -/
theorem table_bits_bounded_and_increasing :
    (∀ b ∈ ald_throttle_bits, b.bit ≤ 19) ∧
    (∀ b ∈ indep_throttler_bits, b.bit ≤ 57) ∧
    (ald_throttle_bits.map (fun b => b.bit)).Sorted (fun i j => i < j) ∧
    (indep_throttler_bits.map (fun b => b.bit)).Sorted (fun i j => i < j) ∧
    (∀ b ∈ ald_throttle_bits, b.bit < 32 ∧ (1 <<< b.bit) % 2 ^ 32 = 2 ^ b.bit) ∧
    (∀ b ∈ indep_throttler_bits, b.bit < 64 ∧ (1 <<< b.bit) % 2 ^ 64 = 2 ^ b.bit) ∧
    (ald_throttle_bits.map (fun b => b.bit)).Nodup ∧
    (indep_throttler_bits.map (fun b => b.bit)).Nodup ∧
    ald_throttle_bits.insertionSort (fun a b => a.bit ≤ b.bit) = ald_throttle_bits ∧
    indep_throttler_bits.insertionSort (fun a b => a.bit ≤ b.bit) = indep_throttler_bits := by
  refine ⟨by decide, by decide, by decide, by decide, by decide, by decide, by decide,
    by decide, by decide, by decide⟩

/-- C12, the code at a requested vector size below 134217728: `main` writes the warning
(on rank 0) but leaves `n` as requested, so `n` stays below 134217728, `factor`, `gridSize`
and `numThreads` are all zero, and the division `n / (gridSize * blockSize)` is a division
by zero. From 134217728 up to the largest `int` the same code gives a `factor` of at
least 1, a positive grid size and thread count, and a defined division. -/
theorem small_vector_size_not_raised (v rank : Int) (h0 : 0 ≤ v) (h : v < 134217728) :
    (check_vector_size 0 (vector_size (some v))).1 =
      ["WARNING: vector_size is too small. setting to 134217728\n"] ∧
    (check_vector_size rank (vector_size (some v))).2 = v.toNat ∧
    (check_vector_size rank (vector_size (some v))).2 < 134217728 ∧
    launch_config (check_vector_size rank (vector_size (some v))).2 = ⟨0, 256, 0, 0⟩ ∧
    elements_per_thread (check_vector_size rank (vector_size (some v))).2
      (launch_config (check_vector_size rank (vector_size (some v))).2) = none ∧
    (∀ w : Int, 134217728 ≤ w → w ≤ 2147483647 →
      (check_vector_size rank (vector_size (some w))) = ([], w.toNat) ∧
      1 ≤ (launch_config w.toNat).factor ∧
      0 < (launch_config w.toNat).gridSize ∧
      0 < (launch_config w.toNat).numThreads ∧
      elements_per_thread w.toNat (launch_config w.toNat) =
        some (w.toNat / (launch_config w.toNat).numThreads.toNat)) := by
  have hn : vector_size (some v) = v.toNat := by
    simp only [vector_size, to_uint64]
    rw [Int.emod_eq_of_lt h0 (by omega)]
  have hlt : v.toNat < 134217728 := by omega
  have hc : ∀ r : Int, (check_vector_size r v.toNat).2 = v.toNat := by
    intro r
    unfold check_vector_size
    split_ifs <;> rfl
  have hcfg : launch_config v.toNat = ⟨0, 256, 0, 0⟩ := by
    unfold launch_config
    rw [Nat.div_eq_of_lt hlt]
    rfl
  refine ⟨?_, ?_, ?_, ?_, ?_, ?_⟩
  · rw [hn]
    simp [check_vector_size, hlt]
  · rw [hn, hc]
  · rw [hn, hc]; exact hlt
  · rw [hn, hc, hcfg]
  · rw [hn, hc, hcfg]
    rfl
  · intro w hw1 hw2
    obtain ⟨n, rfl⟩ : ∃ n : Nat, w = (n : Int) := ⟨w.toNat, by omega⟩
    have hw : vector_size (some (n : Int)) = n := by
      simp only [vector_size, to_uint64]
      rw [Int.emod_eq_of_lt (by omega) (by omega)]
      rfl
    have hge : ¬ n < 134217728 := by omega
    have hk1 : 1 ≤ n / 134217728 := by omega
    have hk2 : n / 134217728 ≤ 15 := by omega
    have hcfg2 : launch_config n =
        ⟨(n / 134217728 : Nat), 256, 29184 * (n / 134217728 : Nat),
          7471104 * (n / 134217728 : Nat)⟩ := by
      unfold launch_config
      generalize n / 134217728 = k at hk1 hk2
      have e1 : to_int32 (k : Int) = k := to_int32_of_range _ (by omega) (by omega)
      have e2 : to_int32 (228 * 128 * (k : Int)) = 29184 * k :=
        (to_int32_of_range _ (by omega) (by omega)).trans (by ring)
      have e3 : to_int32 (29184 * (k : Int) * 256) = 7471104 * k :=
        (to_int32_of_range _ (by omega) (by omega)).trans (by ring)
      simp only [e1, e2, e3]
    have hdiv : to_uint64 (to_int32 (29184 * ((n / 134217728 : Nat) : Int) * 256)) =
        7471104 * (n / 134217728) := by
      generalize n / 134217728 = k at hk1 hk2
      rw [(to_int32_of_range _ (by omega) (by omega)),
        to_uint64_of_range _ (by omega) (by omega)]
      omega
    simp only [Int.toNat_ofNat]
    refine ⟨?_, ?_, ?_, ?_, ?_⟩
    · rw [hw]
      simp [check_vector_size, hge]
    · rw [hcfg2]
      simp only
      omega
    · rw [hcfg2]
      simp only
      omega
    · rw [hcfg2]
      simp only
      omega
    · rw [hcfg2]
      simp only [elements_per_thread]
      rw [hdiv, if_neg (by omega)]
      congr 2

/-- Witness of C12 at the requested vector size 1000 on rank 0. -/
theorem small_vector_size_not_raised_witness :
    ((0 : Int) ≤ 1000 ∧ (1000 : Int) < 134217728) ∧
    check_vector_size 0 (vector_size (some 1000)) =
      (["WARNING: vector_size is too small. setting to 134217728\n"], 1000) ∧
    launch_config (check_vector_size 0 (vector_size (some 1000))).2 = ⟨0, 256, 0, 0⟩ ∧
    elements_per_thread (check_vector_size 0 (vector_size (some 1000))).2
      (launch_config (check_vector_size 0 (vector_size (some 1000))).2) = none :=
  ⟨by decide, by decide,
    (small_vector_size_not_raised 1000 0 (by decide) (by decide)).2.2.2.1,
    (small_vector_size_not_raised 1000 0 (by decide) (by decide)).2.2.2.2.1⟩

/-- C13: for every directory-entry name (a C string, so without a NUL character),
`parse_card_id` returns 1 if and only if the name is "card" followed by one or more ASCII
decimal digits whose numeric value is at most 2^31 - 1, and it then stores exactly that
value in `card_id`; for every other name it returns 0 and leaves `card_id` as it was.
In particular "card", "card0-DP-1", "card-1", "renderD128" and digit strings above
2^31 - 1 (also above the range of `long`) are rejected. -/
theorem parse_card_id_spec (name : String) (card_id : Int) (h : '\x00' ∉ name.data) :
    ((parse_card_id name card_id).1 = 1 ↔
      ∃ ds : List Char, name = "card" ++ String.mk ds ∧ ds ≠ [] ∧
        (∀ c ∈ ds, c.isDigit = true) ∧ decimal_value ds ≤ 2 ^ 31 - 1) ∧
    (∀ ds : List Char, name = "card" ++ String.mk ds → ds ≠ [] →
      (∀ c ∈ ds, c.isDigit = true) → decimal_value ds ≤ 2 ^ 31 - 1 →
      parse_card_id name card_id = (1, (decimal_value ds : Int))) ∧
    ((¬ ∃ ds : List Char, name = "card" ++ String.mk ds ∧ ds ≠ [] ∧
        (∀ c ∈ ds, c.isDigit = true) ∧ decimal_value ds ≤ 2 ^ 31 - 1) →
      parse_card_id name card_id = (0, card_id)) ∧
    parse_card_id "card" card_id = (0, card_id) ∧
    parse_card_id "card0-DP-1" card_id = (0, card_id) ∧
    parse_card_id "card-1" card_id = (0, card_id) ∧
    parse_card_id "renderD128" card_id = (0, card_id) ∧
    parse_card_id "card2147483648" card_id = (0, card_id) ∧
    parse_card_id "card99999999999999999999" card_id = (0, card_id) ∧
    parse_card_id "card2147483647" card_id = (1, 2147483647) ∧
    parse_card_id "card0" card_id = (1, 0) := by
  have hrej : (¬ ∃ ds : List Char, name = "card" ++ String.mk ds ∧ ds ≠ [] ∧
        (∀ c ∈ ds, c.isDigit = true) ∧ decimal_value ds ≤ 2 ^ 31 - 1) →
      parse_card_id name card_id = (0, card_id) := by
    intro hn
    rw [card_name_iff] at hn
    exact parse_card_id_reject name card_id h hn
  have hacc : ∀ ds : List Char, name = "card" ++ String.mk ds → ds ≠ [] →
      (∀ c ∈ ds, c.isDigit = true) → decimal_value ds ≤ 2 ^ 31 - 1 →
      parse_card_id name card_id = (1, (decimal_value ds : Int)) := by
    intro ds hn h2 h3 h4
    obtain ⟨h1, rfl⟩ := (card_name_split name ds).1 hn
    exact parse_card_id_accept name card_id h h1 h2 h3 (by norm_num at h4; exact h4)
  refine ⟨⟨?_, ?_⟩, hacc, hrej, rfl, rfl, rfl, rfl, rfl, rfl, rfl, rfl⟩
  · intro h1
    by_contra hn
    rw [hrej hn] at h1
    exact absurd h1 (by norm_num)
  · rintro ⟨ds, hn, h2, h3, h4⟩
    rw [hacc ds hn h2 h3 h4]

/-- Witness of C13 at the name "card12": accepted, with 12 stored. -/
theorem parse_card_id_spec_witness :
    '\x00' ∉ "card12".data ∧ parse_card_id "card12" (-1) = (1, 12) :=
  ⟨by decide, ((parse_card_id_spec "card12" (-1) (by decide)).2.1 ['1', '2'] (by decide)
    (by decide) (by decide) (by decide)).trans (by decide)⟩

end AmdThrottle
